import Mathlib

/-!
# Launch Control protocol layer

A shallow embedding of `LaunchControl/LaunchControl.{h,cpp}`: the control table
of the `LaunchControl` class (eight pads, sixteen knobs, three bytes each), the
classifier `messageToControl`, the naming function `getControlName`, the SysEx
encoders and the inbound handler `midiInCallback`.

Conventions of the embedding.

* An `unsigned char` is a `Nat`; a conversion to `unsigned char` is an explicit
  reduction modulo 256 (`toUChar`).  An `int` is an `Int`.
* A `std::vector<unsigned char>` is a `List Nat`.
* A member function that mutates the object and may throw takes the object and
  returns a pair: the outcome (`Except Error _`) and the object as it is when
  the function returns or throws.  Mutations made before a throw persist, as
  they do in C++.
* An unchecked read `v[i]` outside the vector is undefined.  The model stops at
  such a read with the outcome `undefined_behavior`; the object (and the list of
  sent messages) it reports is the one at that point, and nothing is said about
  what the program does after it.
* `midiout->sendMessage` is recorded as a list of sent messages.
* Console output (`std::cout`) is not part of the model.
-/

namespace LaunchControl

/-- The ways a call can fail to return: `out_of_range` is the exception raised by
`std::vector::at` on an index outside the vector, `undefined_behavior` is an
unchecked read `v[i]` outside the vector. -/
inductive Error where
  | out_of_range
  | undefined_behavior
  deriving DecidableEq, Repr

deriving instance DecidableEq for Except

/-- The enum `LogMode` of `LaunchControl.h`. -/
inductive LogMode where
  | DEBUG
  | ERR
  deriving DecidableEq, Repr

/-- The struct `Pad`: `unsigned char data[3]`, one field for each element. -/
structure Pad where
  data0 : Nat
  data1 : Nat
  data2 : Nat
  deriving DecidableEq, Repr

/-- The struct `Knob`: `unsigned char data[3]`, one field for each element. -/
structure Knob where
  data0 : Nat
  data1 : Nat
  data2 : Nat
  deriving DecidableEq, Repr

/-- The array `data` of a pad, as the byte sequence `memcmp` reads. -/
def Pad.data (p : Pad) : List Nat := [p.data0, p.data1, p.data2]

/-- The array `data` of a knob, as the byte sequence `memcmp` reads. -/
def Knob.data (k : Knob) : List Nat := [k.data0, k.data1, k.data2]

/-- The member `Pad::On`: `data[2] == 127`. -/
def Pad.On (p : Pad) : Bool := p.data2 == 127

/-- The member `Knob::Value`: `data[2]` as an `int`. -/
def Knob.Value (k : Knob) : Int := (k.data2 : Int)

/-- The enum `ColorBrightnessEnum`. -/
inductive ColorBrightnessEnum where
  | Off
  | RedLow
  | RedFull
  | AmberLow
  | AmberFull
  | YellowFull
  | GreenLow
  | GreenFull
  deriving DecidableEq, Repr

/-- The enumerator values of `ColorBrightnessEnum`. -/
def ColorBrightnessEnum.toNat : ColorBrightnessEnum → Nat
  | .Off => 0x0C
  | .RedLow => 0x0D
  | .RedFull => 0x0F
  | .AmberLow => 0x1D
  | .AmberFull => 0x3F
  | .YellowFull => 0x3E
  | .GreenLow => 0x1C
  | .GreenFull => 0x3C

/-- The static array `LaunchControl::ColorBrightness[]`. -/
def ColorBrightness : List ColorBrightnessEnum :=
  [.Off, .GreenLow, .GreenFull, .AmberLow, .AmberFull, .YellowFull, .RedLow, .RedFull]

/-- The enum `Controls`. -/
inductive Controls where
  | PAD1
  | PAD2
  | PAD3
  | PAD4
  | PAD5
  | PAD6
  | PAD7
  | PAD8
  | KNOB_1
  | KNOB_2
  | KNOB_3
  | KNOB_4
  | KNOB_5
  | KNOB_6
  | KNOB_7
  | KNOB_8
  | KNOB_9
  | KNOB_10
  | KNOB_11
  | KNOB_12
  | KNOB_13
  | KNOB_14
  | KNOB_15
  | KNOB_16
  | UNKNOWN
  deriving DecidableEq, Repr

/-- The enumerator values of `Controls` (`PAD1 = 0x00`, ..., `UNKNOWN = 0x18`). -/
def Controls.toNat : Controls → Nat
  | .PAD1 => 0x00
  | .PAD2 => 0x01
  | .PAD3 => 0x02
  | .PAD4 => 0x03
  | .PAD5 => 0x04
  | .PAD6 => 0x05
  | .PAD7 => 0x06
  | .PAD8 => 0x07
  | .KNOB_1 => 0x08
  | .KNOB_2 => 0x09
  | .KNOB_3 => 0x0A
  | .KNOB_4 => 0x0B
  | .KNOB_5 => 0x0C
  | .KNOB_6 => 0x0D
  | .KNOB_7 => 0x0E
  | .KNOB_8 => 0x0F
  | .KNOB_9 => 0x10
  | .KNOB_10 => 0x11
  | .KNOB_11 => 0x12
  | .KNOB_12 => 0x13
  | .KNOB_13 => 0x14
  | .KNOB_14 => 0x15
  | .KNOB_15 => 0x16
  | .KNOB_16 => 0x17
  | .UNKNOWN => 0x18

/-- Conversion of an `int` to `unsigned char`: reduction modulo 256. -/
def toUChar (n : Int) : Nat := (n % 256).toNat

/-- Conversion of an `int` to a signed 8-bit `char`. -/
def toChar (n : Int) : Int := (n + 128) % 256 - 128

/-- The constant `SYSSEX_HEAD`: `static const char SYSSEX_HEAD = 0xF0`. -/
def SYSSEX_HEAD : Int := toChar 0xF0

/-- The constant `SYSSEX_TAIL`: `static const char SYSSEX_TAIL = 0xF7`. -/
def SYSSEX_TAIL : Int := toChar 0xF7

/-- The unchecked access `std::vector::operator[]`: undefined outside the vector. -/
def vecIndex (v : List Nat) (i : Nat) : Except Error Nat :=
  match v.get? i with
  | some b => .ok b
  | none => .error .undefined_behavior

/-- The checked access `std::vector::at`. -/
def vecAt (v : List Nat) (i : Nat) : Except Error Nat :=
  match v.get? i with
  | some b => .ok b
  | none => .error .out_of_range

/-- The library function `memcmp(a, b, n)`: zero when the first `n` bytes agree,
otherwise the difference of the first two bytes that differ (only its sign is
specified; the code only tests it against zero). -/
def memcmp : List Nat → List Nat → Nat → Int
  | _, _, 0 => 0
  | x :: a, y :: b, n + 1 => if x = y then memcmp a b n else (x : Int) - (y : Int)
  | _, _, _ + 1 => 0

end LaunchControl

/-- The data members of the class `LaunchControl` that the protocol layer reads
or writes.  The transport handles `midiin`, `midiout` are outside the model. -/
structure LaunchControl where
  forceToggleMode : Bool
  logMode : LaunchControl.LogMode
  SYSEX_ID0 : Nat
  SYSEX_ID1 : Nat
  SYSEX_ID2 : Nat
  KNOB_1_UPPER : LaunchControl.Knob
  KNOB_2_UPPER : LaunchControl.Knob
  KNOB_3_UPPER : LaunchControl.Knob
  KNOB_4_UPPER : LaunchControl.Knob
  KNOB_5_UPPER : LaunchControl.Knob
  KNOB_6_UPPER : LaunchControl.Knob
  KNOB_7_UPPER : LaunchControl.Knob
  KNOB_8_UPPER : LaunchControl.Knob
  KNOB_1_LOW : LaunchControl.Knob
  KNOB_2_LOW : LaunchControl.Knob
  KNOB_3_LOW : LaunchControl.Knob
  KNOB_4_LOW : LaunchControl.Knob
  KNOB_5_LOW : LaunchControl.Knob
  KNOB_6_LOW : LaunchControl.Knob
  KNOB_7_LOW : LaunchControl.Knob
  KNOB_8_LOW : LaunchControl.Knob
  PAD_1 : LaunchControl.Pad
  PAD_2 : LaunchControl.Pad
  PAD_3 : LaunchControl.Pad
  PAD_4 : LaunchControl.Pad
  PAD_5 : LaunchControl.Pad
  PAD_6 : LaunchControl.Pad
  PAD_7 : LaunchControl.Pad
  PAD_8 : LaunchControl.Pad
  deriving DecidableEq, Repr

namespace LaunchControl

/-- The constructor `LaunchControl::LaunchControl`.  Its member initialiser list
sets `SYSEX_ID` and the three bytes of every knob and pad; its body sets
`forceToggleMode`.  The member `logMode` is not assigned by the constructor, so
its content after construction is the argument `logModeMember`. -/
def construct (toggleMode : Bool) (logModeMember : LogMode) : LaunchControl where
  forceToggleMode := toggleMode
  logMode := logModeMember
  SYSEX_ID0 := 0x00
  SYSEX_ID1 := 0x20
  SYSEX_ID2 := 0x29
  KNOB_1_LOW := ⟨184, 41, 0⟩
  KNOB_2_LOW := ⟨184, 42, 0⟩
  KNOB_3_LOW := ⟨184, 43, 0⟩
  KNOB_4_LOW := ⟨184, 44, 0⟩
  KNOB_5_LOW := ⟨184, 45, 0⟩
  KNOB_6_LOW := ⟨184, 46, 0⟩
  KNOB_7_LOW := ⟨184, 47, 0⟩
  KNOB_8_LOW := ⟨184, 48, 0⟩
  KNOB_1_UPPER := ⟨184, 21, 0⟩
  KNOB_2_UPPER := ⟨184, 22, 0⟩
  KNOB_3_UPPER := ⟨184, 23, 0⟩
  KNOB_4_UPPER := ⟨184, 24, 0⟩
  KNOB_5_UPPER := ⟨184, 25, 0⟩
  KNOB_6_UPPER := ⟨184, 26, 0⟩
  KNOB_7_UPPER := ⟨184, 27, 0⟩
  KNOB_8_UPPER := ⟨184, 28, 0⟩
  PAD_1 := ⟨152, 9, 127⟩
  PAD_2 := ⟨152, 10, 127⟩
  PAD_3 := ⟨152, 11, 127⟩
  PAD_4 := ⟨152, 12, 127⟩
  PAD_5 := ⟨152, 25, 127⟩
  PAD_6 := ⟨152, 26, 127⟩
  PAD_7 := ⟨152, 27, 127⟩
  PAD_8 := ⟨152, 28, 127⟩

/-- The member function `messageToControl`.  Its first statement,
`int controlValue = message[2]`, reads the vector without a bounds check, before
the checked accesses `message.at(0..2)`: on a message shorter than three bytes that
read is undefined and the model stops there, so the checked accesses are only reached
with at least three bytes. -/
def messageToControl (self : LaunchControl) (message : List Nat) :
    Except Error Controls × LaunchControl :=
  match vecIndex message 2 with
  | .error e => (.error e, self)
  | .ok byte2 =>
      let controlValue : Int := (byte2 : Int)
      match vecAt message 0, vecAt message 1, vecAt message 2 with
      | .ok m0, .ok m1, .ok m2 =>
        let messageToCompare : List Nat := [m0, m1, m2]
        if memcmp messageToCompare self.PAD_1.data 2 = 0 then
          (.ok .PAD1, { self with PAD_1 := { self.PAD_1 with
            data2 := toUChar |(self.PAD_1.data2 : Int) - controlValue| } })
        else if memcmp messageToCompare self.PAD_2.data 2 = 0 then
          (.ok .PAD2, { self with PAD_2 := { self.PAD_2 with
            data2 := toUChar |(self.PAD_2.data2 : Int) - controlValue| } })
        else if memcmp messageToCompare self.PAD_3.data 2 = 0 then
          (.ok .PAD3, { self with PAD_3 := { self.PAD_3 with
            data2 := toUChar |(self.PAD_3.data2 : Int) - controlValue| } })
        else if memcmp messageToCompare self.PAD_4.data 2 = 0 then
          (.ok .PAD4, { self with PAD_4 := { self.PAD_4 with
            data2 := toUChar |(self.PAD_4.data2 : Int) - controlValue| } })
        else if memcmp messageToCompare self.PAD_5.data 2 = 0 then
          (.ok .PAD5, { self with PAD_5 := { self.PAD_5 with
            data2 := toUChar |(self.PAD_5.data2 : Int) - controlValue| } })
        else if memcmp messageToCompare self.PAD_6.data 2 = 0 then
          (.ok .PAD6, { self with PAD_6 := { self.PAD_6 with
            data2 := toUChar |(self.PAD_6.data2 : Int) - controlValue| } })
        else if memcmp messageToCompare self.PAD_7.data 2 = 0 then
          (.ok .PAD7, { self with PAD_7 := { self.PAD_7 with
            data2 := toUChar |(self.PAD_7.data2 : Int) - controlValue| } })
        else if memcmp messageToCompare self.PAD_8.data 2 = 0 then
          (.ok .PAD8, { self with PAD_8 := { self.PAD_8 with
            data2 := toUChar |(self.PAD_8.data2 : Int) - controlValue| } })
        else if memcmp messageToCompare self.KNOB_1_LOW.data 2 = 0 then
          (.ok .KNOB_1, { self with KNOB_1_LOW := { self.KNOB_1_LOW with
            data2 := toUChar controlValue } })
        else if memcmp messageToCompare self.KNOB_2_LOW.data 2 = 0 then
          (.ok .KNOB_2, { self with KNOB_2_LOW := { self.KNOB_2_LOW with
            data2 := toUChar controlValue } })
        else if memcmp messageToCompare self.KNOB_3_LOW.data 2 = 0 then
          (.ok .KNOB_3, { self with KNOB_3_LOW := { self.KNOB_3_LOW with
            data2 := toUChar controlValue } })
        else if memcmp messageToCompare self.KNOB_4_LOW.data 2 = 0 then
          (.ok .KNOB_4, { self with KNOB_4_LOW := { self.KNOB_4_LOW with
            data2 := toUChar controlValue } })
        else if memcmp messageToCompare self.KNOB_5_LOW.data 2 = 0 then
          (.ok .KNOB_5, { self with KNOB_5_LOW := { self.KNOB_5_LOW with
            data2 := toUChar controlValue } })
        else if memcmp messageToCompare self.KNOB_6_LOW.data 2 = 0 then
          (.ok .KNOB_6, { self with KNOB_6_LOW := { self.KNOB_6_LOW with
            data2 := toUChar controlValue } })
        else if memcmp messageToCompare self.KNOB_7_LOW.data 2 = 0 then
          (.ok .KNOB_7, { self with KNOB_7_LOW := { self.KNOB_7_LOW with
            data2 := toUChar controlValue } })
        else if memcmp messageToCompare self.KNOB_8_LOW.data 2 = 0 then
          (.ok .KNOB_8, { self with KNOB_8_LOW := { self.KNOB_8_LOW with
            data2 := toUChar controlValue } })
        else if memcmp messageToCompare self.KNOB_1_UPPER.data 2 = 0 then
          (.ok .KNOB_9, { self with KNOB_1_UPPER := { self.KNOB_1_UPPER with
            data2 := toUChar controlValue } })
        else if memcmp messageToCompare self.KNOB_2_UPPER.data 2 = 0 then
          (.ok .KNOB_10, { self with KNOB_2_UPPER := { self.KNOB_2_UPPER with
            data2 := toUChar controlValue } })
        else if memcmp messageToCompare self.KNOB_3_UPPER.data 2 = 0 then
          (.ok .KNOB_11, { self with KNOB_3_UPPER := { self.KNOB_3_UPPER with
            data2 := toUChar controlValue } })
        else if memcmp messageToCompare self.KNOB_4_UPPER.data 2 = 0 then
          (.ok .KNOB_12, { self with KNOB_4_UPPER := { self.KNOB_4_UPPER with
            data2 := toUChar controlValue } })
        else if memcmp messageToCompare self.KNOB_5_UPPER.data 2 = 0 then
          (.ok .KNOB_13, { self with KNOB_5_UPPER := { self.KNOB_5_UPPER with
            data2 := toUChar controlValue } })
        else if memcmp messageToCompare self.KNOB_6_UPPER.data 2 = 0 then
          (.ok .KNOB_14, { self with KNOB_6_UPPER := { self.KNOB_6_UPPER with
            data2 := toUChar controlValue } })
        else if memcmp messageToCompare self.KNOB_7_UPPER.data 2 = 0 then
          (.ok .KNOB_15, { self with KNOB_7_UPPER := { self.KNOB_7_UPPER with
            data2 := toUChar controlValue } })
        else if memcmp messageToCompare self.KNOB_8_UPPER.data 2 = 0 then
          (.ok .KNOB_16, { self with KNOB_8_UPPER := { self.KNOB_8_UPPER with
            data2 := toUChar controlValue } })
        else
          (.ok .UNKNOWN, self)
      | _, _, _ => (.error .out_of_range, self)

/-- The member function `getControlName`.  It classifies the message with
`messageToControl` (so the object is updated by that call) and builds the label
from the enumerator value. -/
def getControlName (self : LaunchControl) (message : List Nat) :
    Except Error String × LaunchControl :=
  match messageToControl self message with
  | (.error e, self1) => (.error e, self1)
  | (.ok controlEnum, self1) =>
    let pad : Bool :=
      match controlEnum with
      | .PAD1 => true
      | .PAD2 => true
      | .PAD3 => true
      | .PAD4 => true
      | .PAD5 => true
      | .PAD6 => true
      | .PAD7 => true
      | .PAD8 => true
      | _ => false
    if pad then
      (.ok ("PAD " ++ toString ((controlEnum.toNat : Int) + 1)), self1)
    else
      match controlEnum with
      | .UNKNOWN => (.ok "UNKNOWN", self1)
      | _ => (.ok ("KNOB " ++ toString ((controlEnum.toNat : Int) - 7)), self1)

/-- The member function `controlValues`: the pad the control names (the C++
function returns a pointer to its bytes), or `none` for the null pointer. -/
def controlValues (self : LaunchControl) (control : Controls) : Option Pad :=
  if control = .PAD1 then some self.PAD_1
  else if control = .PAD2 then some self.PAD_2
  else if control = .PAD3 then some self.PAD_3
  else if control = .PAD4 then some self.PAD_4
  else if control = .PAD5 then some self.PAD_5
  else if control = .PAD6 then some self.PAD_6
  else if control = .PAD7 then some self.PAD_7
  else if control = .PAD8 then some self.PAD_8
  else none

/-- The static member function `isPad`. -/
def isPad (control : Controls) : Bool :=
  match control with
  | .PAD1 => true
  | .PAD2 => true
  | .PAD3 => true
  | .PAD4 => true
  | .PAD5 => true
  | .PAD6 => true
  | .PAD7 => true
  | .PAD8 => true
  | _ => false

/-- The member function `GetSysExMessage`: head byte, the three bytes of
`SYSEX_ID`, one `push_back(dataBytes->at(i))` for each index below the size (an
access that cannot throw), tail byte. -/
def GetSysExMessage (self : LaunchControl) (dataBytes : List Nat) : List Nat :=
  let sizeInByte : Nat := dataBytes.length
  let sysexMsg : List Nat := []
  let sysexMsg := sysexMsg ++ [toUChar SYSSEX_HEAD]
  let sysexMsg := sysexMsg ++ [self.SYSEX_ID0]
  let sysexMsg := sysexMsg ++ [self.SYSEX_ID1]
  let sysexMsg := sysexMsg ++ [self.SYSEX_ID2]
  let sysexMsg := (List.range sizeInByte).foldl
    (fun acc i => acc ++ [dataBytes.getD i 0]) sysexMsg
  sysexMsg ++ [toUChar SYSSEX_TAIL]

/-- The member function `setPadColor`; the result is the message handed to
`midiout->sendMessage`. -/
def setPadColor (self : LaunchControl) (padNumber : Int) (color : ColorBrightnessEnum) :
    List Nat :=
  let setColorFixed : List Nat := []
  let setColorFixed := setColorFixed ++ [0x02]
  let setColorFixed := setColorFixed ++ [0x0A]
  let setColorFixed := setColorFixed ++ [0x78]
  let setColorFixed := setColorFixed ++ [0x08]
  let setColorFixed := setColorFixed ++ [toUChar padNumber]
  let setColorFixed := setColorFixed ++ [color.toNat]
  GetSysExMessage self setColorFixed

/-- The member function `setTemplate`; the result is the message handed to
`midiout->sendMessage`. -/
def setTemplate (self : LaunchControl) (templateNumber : Nat) : List Nat :=
  let setTemplateMessage : List Nat := []
  let setTemplateMessage := setTemplateMessage ++ [0x02]
  let setTemplateMessage := setTemplateMessage ++ [0x0A]
  let setTemplateMessage := setTemplateMessage ++ [0x77]
  let setTemplateMessage := setTemplateMessage ++ [templateNumber]
  GetSysExMessage self setTemplateMessage

/-- The member function `resetLaunchControl`; the result is the message handed
to `midiout->sendMessage`. -/
def resetLaunchControl (templateNumber : Nat) : List Nat :=
  [toUChar (176 + (templateNumber : Int)), 0x00, 0x00]

/-- The member function `midiInCallback`.  The result is the outcome, the object
afterwards and the messages sent, in order.  The block under `#if DEBUG` is not
compiled: `DEBUG` is an enumerator of `LogMode`, not a preprocessor symbol. -/
def midiInCallback (self : LaunchControl) (message : List Nat) :
    Except Error Unit × LaunchControl × List (List Nat) :=
  let nBytes : Int := (message.length : Int)
  if nBytes ≤ 3 then
    match messageToControl self message with
    | (.error e, self1) => (.error e, self1, [])
    | (.ok launchPadControl, self1) =>
      match vecAt message 2 with
      | .error e => (.error e, self1, [])
      | .ok _ =>
        let toggled : Except Error Unit × LaunchControl × List (List Nat) :=
          if self1.forceToggleMode then
            match getControlName self1 message with
            | (.error e, self2) => (.error e, self2, [])
            | (.ok _, self2) =>
              match controlValues self2 launchPadControl with
              | none => (.ok (), self2, [])
              | some controlValue =>
                let sentOn : List (List Nat) :=
                  if controlValue.data2 = 127 then
                    [setPadColor self2 (launchPadControl.toNat : Int) .RedFull]
                  else []
                let sentOff : List (List Nat) :=
                  if controlValue.data2 = 0 then
                    [setPadColor self2 (launchPadControl.toNat : Int) .Off]
                  else []
                (.ok (), self2, sentOn ++ sentOff)
          else (.ok (), self1, [])
        match toggled with
        | (.error e, self2, sent) => (.error e, self2, sent)
        | (.ok _, self2, sent) =>
          if self2.logMode = .DEBUG then
            match getControlName self2 message with
            | (.error e, self3) => (.error e, self3, sent)
            | (.ok _, self3) =>
              match vecAt message 0, vecAt message 1, vecAt message 2 with
              | .ok _, .ok _, .ok _ => (.ok (), self3, sent)
              | _, _, _ => (.error .out_of_range, self3, sent)
          else (.ok (), self2, sent)
  else (.ok (), self, [])

/-! ## Vocabulary of the properties -/

/-- The address bytes `(data[0], data[1])` of the 24 members, in the order in
which `messageToControl` compares them. -/
def addresses (self : LaunchControl) : List (Nat × Nat) :=
  [(self.PAD_1.data0, self.PAD_1.data1), (self.PAD_2.data0, self.PAD_2.data1),
   (self.PAD_3.data0, self.PAD_3.data1), (self.PAD_4.data0, self.PAD_4.data1),
   (self.PAD_5.data0, self.PAD_5.data1), (self.PAD_6.data0, self.PAD_6.data1),
   (self.PAD_7.data0, self.PAD_7.data1), (self.PAD_8.data0, self.PAD_8.data1),
   (self.KNOB_1_LOW.data0, self.KNOB_1_LOW.data1),
   (self.KNOB_2_LOW.data0, self.KNOB_2_LOW.data1),
   (self.KNOB_3_LOW.data0, self.KNOB_3_LOW.data1),
   (self.KNOB_4_LOW.data0, self.KNOB_4_LOW.data1),
   (self.KNOB_5_LOW.data0, self.KNOB_5_LOW.data1),
   (self.KNOB_6_LOW.data0, self.KNOB_6_LOW.data1),
   (self.KNOB_7_LOW.data0, self.KNOB_7_LOW.data1),
   (self.KNOB_8_LOW.data0, self.KNOB_8_LOW.data1),
   (self.KNOB_1_UPPER.data0, self.KNOB_1_UPPER.data1),
   (self.KNOB_2_UPPER.data0, self.KNOB_2_UPPER.data1),
   (self.KNOB_3_UPPER.data0, self.KNOB_3_UPPER.data1),
   (self.KNOB_4_UPPER.data0, self.KNOB_4_UPPER.data1),
   (self.KNOB_5_UPPER.data0, self.KNOB_5_UPPER.data1),
   (self.KNOB_6_UPPER.data0, self.KNOB_6_UPPER.data1),
   (self.KNOB_7_UPPER.data0, self.KNOB_7_UPPER.data1),
   (self.KNOB_8_UPPER.data0, self.KNOB_8_UPPER.data1)]

/-- The object's address bytes are the ones the constructor sets; the stored
values (`data[2]`) and the modes are arbitrary. -/
def Registered (self : LaunchControl) : Prop :=
  addresses self = addresses (construct self.forceToggleMode self.logMode)

instance (self : LaunchControl) : Decidable (Registered self) := by
  unfold Registered
  infer_instance

/-- The three bytes of the member that `messageToControl` pairs with a control:
the member tested in the branch that returns that control. -/
def member (self : LaunchControl) : Controls → Option (Nat × Nat × Nat)
  | .PAD1 => some (self.PAD_1.data0, self.PAD_1.data1, self.PAD_1.data2)
  | .PAD2 => some (self.PAD_2.data0, self.PAD_2.data1, self.PAD_2.data2)
  | .PAD3 => some (self.PAD_3.data0, self.PAD_3.data1, self.PAD_3.data2)
  | .PAD4 => some (self.PAD_4.data0, self.PAD_4.data1, self.PAD_4.data2)
  | .PAD5 => some (self.PAD_5.data0, self.PAD_5.data1, self.PAD_5.data2)
  | .PAD6 => some (self.PAD_6.data0, self.PAD_6.data1, self.PAD_6.data2)
  | .PAD7 => some (self.PAD_7.data0, self.PAD_7.data1, self.PAD_7.data2)
  | .PAD8 => some (self.PAD_8.data0, self.PAD_8.data1, self.PAD_8.data2)
  | .KNOB_1 => some (self.KNOB_1_LOW.data0, self.KNOB_1_LOW.data1, self.KNOB_1_LOW.data2)
  | .KNOB_2 => some (self.KNOB_2_LOW.data0, self.KNOB_2_LOW.data1, self.KNOB_2_LOW.data2)
  | .KNOB_3 => some (self.KNOB_3_LOW.data0, self.KNOB_3_LOW.data1, self.KNOB_3_LOW.data2)
  | .KNOB_4 => some (self.KNOB_4_LOW.data0, self.KNOB_4_LOW.data1, self.KNOB_4_LOW.data2)
  | .KNOB_5 => some (self.KNOB_5_LOW.data0, self.KNOB_5_LOW.data1, self.KNOB_5_LOW.data2)
  | .KNOB_6 => some (self.KNOB_6_LOW.data0, self.KNOB_6_LOW.data1, self.KNOB_6_LOW.data2)
  | .KNOB_7 => some (self.KNOB_7_LOW.data0, self.KNOB_7_LOW.data1, self.KNOB_7_LOW.data2)
  | .KNOB_8 => some (self.KNOB_8_LOW.data0, self.KNOB_8_LOW.data1, self.KNOB_8_LOW.data2)
  | .KNOB_9 => some (self.KNOB_1_UPPER.data0, self.KNOB_1_UPPER.data1, self.KNOB_1_UPPER.data2)
  | .KNOB_10 => some (self.KNOB_2_UPPER.data0, self.KNOB_2_UPPER.data1, self.KNOB_2_UPPER.data2)
  | .KNOB_11 => some (self.KNOB_3_UPPER.data0, self.KNOB_3_UPPER.data1, self.KNOB_3_UPPER.data2)
  | .KNOB_12 => some (self.KNOB_4_UPPER.data0, self.KNOB_4_UPPER.data1, self.KNOB_4_UPPER.data2)
  | .KNOB_13 => some (self.KNOB_5_UPPER.data0, self.KNOB_5_UPPER.data1, self.KNOB_5_UPPER.data2)
  | .KNOB_14 => some (self.KNOB_6_UPPER.data0, self.KNOB_6_UPPER.data1, self.KNOB_6_UPPER.data2)
  | .KNOB_15 => some (self.KNOB_7_UPPER.data0, self.KNOB_7_UPPER.data1, self.KNOB_7_UPPER.data2)
  | .KNOB_16 => some (self.KNOB_8_UPPER.data0, self.KNOB_8_UPPER.data1, self.KNOB_8_UPPER.data2)
  | .UNKNOWN => none

/-- The address bytes of a control's member. -/
def addressOf (self : LaunchControl) (c : Controls) : Option (Nat × Nat) :=
  (member self c).map fun t => (t.1, t.2.1)

/-- The stored value (third byte) of a control's member. -/
def storedValue (self : LaunchControl) (c : Controls) : Option Nat :=
  (member self c).map fun t => t.2.2

/-- The sixteen knob controls. -/
def isKnob (control : Controls) : Bool :=
  !isPad control && control != .UNKNOWN

/-- The fixed table of the specification: status 152 with data bytes
9, 10, 11, 12, 25, 26, 27, 28 is `PAD1..PAD8`, status 184 with 41..48 is
`KNOB_1..KNOB_8`, status 184 with 21..28 is `KNOB_9..KNOB_16`, anything else is
`UNKNOWN`. -/
def controlTable (s d : Nat) : Controls :=
  if s = 152 then
    if d = 9 then .PAD1
    else if d = 10 then .PAD2
    else if d = 11 then .PAD3
    else if d = 12 then .PAD4
    else if d = 25 then .PAD5
    else if d = 26 then .PAD6
    else if d = 27 then .PAD7
    else if d = 28 then .PAD8
    else .UNKNOWN
  else if s = 184 then
    if d = 41 then .KNOB_1
    else if d = 42 then .KNOB_2
    else if d = 43 then .KNOB_3
    else if d = 44 then .KNOB_4
    else if d = 45 then .KNOB_5
    else if d = 46 then .KNOB_6
    else if d = 47 then .KNOB_7
    else if d = 48 then .KNOB_8
    else if d = 21 then .KNOB_9
    else if d = 22 then .KNOB_10
    else if d = 23 then .KNOB_11
    else if d = 24 then .KNOB_12
    else if d = 25 then .KNOB_13
    else if d = 26 then .KNOB_14
    else if d = 27 then .KNOB_15
    else if d = 28 then .KNOB_16
    else .UNKNOWN
  else .UNKNOWN

/-- The control returned by the if/else chain of `messageToControl` for leading
bytes `s`, `d`: the first member, in the order of the chain, whose two address
bytes equal them. -/
def firstMatch (self : LaunchControl) (s d : Nat) : Controls :=
  if s = self.PAD_1.data0 ∧ d = self.PAD_1.data1 then .PAD1
  else if s = self.PAD_2.data0 ∧ d = self.PAD_2.data1 then .PAD2
  else if s = self.PAD_3.data0 ∧ d = self.PAD_3.data1 then .PAD3
  else if s = self.PAD_4.data0 ∧ d = self.PAD_4.data1 then .PAD4
  else if s = self.PAD_5.data0 ∧ d = self.PAD_5.data1 then .PAD5
  else if s = self.PAD_6.data0 ∧ d = self.PAD_6.data1 then .PAD6
  else if s = self.PAD_7.data0 ∧ d = self.PAD_7.data1 then .PAD7
  else if s = self.PAD_8.data0 ∧ d = self.PAD_8.data1 then .PAD8
  else if s = self.KNOB_1_LOW.data0 ∧ d = self.KNOB_1_LOW.data1 then .KNOB_1
  else if s = self.KNOB_2_LOW.data0 ∧ d = self.KNOB_2_LOW.data1 then .KNOB_2
  else if s = self.KNOB_3_LOW.data0 ∧ d = self.KNOB_3_LOW.data1 then .KNOB_3
  else if s = self.KNOB_4_LOW.data0 ∧ d = self.KNOB_4_LOW.data1 then .KNOB_4
  else if s = self.KNOB_5_LOW.data0 ∧ d = self.KNOB_5_LOW.data1 then .KNOB_5
  else if s = self.KNOB_6_LOW.data0 ∧ d = self.KNOB_6_LOW.data1 then .KNOB_6
  else if s = self.KNOB_7_LOW.data0 ∧ d = self.KNOB_7_LOW.data1 then .KNOB_7
  else if s = self.KNOB_8_LOW.data0 ∧ d = self.KNOB_8_LOW.data1 then .KNOB_8
  else if s = self.KNOB_1_UPPER.data0 ∧ d = self.KNOB_1_UPPER.data1 then .KNOB_9
  else if s = self.KNOB_2_UPPER.data0 ∧ d = self.KNOB_2_UPPER.data1 then .KNOB_10
  else if s = self.KNOB_3_UPPER.data0 ∧ d = self.KNOB_3_UPPER.data1 then .KNOB_11
  else if s = self.KNOB_4_UPPER.data0 ∧ d = self.KNOB_4_UPPER.data1 then .KNOB_12
  else if s = self.KNOB_5_UPPER.data0 ∧ d = self.KNOB_5_UPPER.data1 then .KNOB_13
  else if s = self.KNOB_6_UPPER.data0 ∧ d = self.KNOB_6_UPPER.data1 then .KNOB_14
  else if s = self.KNOB_7_UPPER.data0 ∧ d = self.KNOB_7_UPPER.data1 then .KNOB_15
  else if s = self.KNOB_8_UPPER.data0 ∧ d = self.KNOB_8_UPPER.data1 then .KNOB_16
  else .UNKNOWN

/-- The assignment made in the branch of `messageToControl` that returns the
given control, for the value `controlValue` read from the message. -/
def writeBack (self : LaunchControl) (c : Controls) (controlValue : Int) : LaunchControl :=
  match c with
  | .PAD1 => { self with PAD_1 := { self.PAD_1 with
      data2 := toUChar |(self.PAD_1.data2 : Int) - controlValue| } }
  | .PAD2 => { self with PAD_2 := { self.PAD_2 with
      data2 := toUChar |(self.PAD_2.data2 : Int) - controlValue| } }
  | .PAD3 => { self with PAD_3 := { self.PAD_3 with
      data2 := toUChar |(self.PAD_3.data2 : Int) - controlValue| } }
  | .PAD4 => { self with PAD_4 := { self.PAD_4 with
      data2 := toUChar |(self.PAD_4.data2 : Int) - controlValue| } }
  | .PAD5 => { self with PAD_5 := { self.PAD_5 with
      data2 := toUChar |(self.PAD_5.data2 : Int) - controlValue| } }
  | .PAD6 => { self with PAD_6 := { self.PAD_6 with
      data2 := toUChar |(self.PAD_6.data2 : Int) - controlValue| } }
  | .PAD7 => { self with PAD_7 := { self.PAD_7 with
      data2 := toUChar |(self.PAD_7.data2 : Int) - controlValue| } }
  | .PAD8 => { self with PAD_8 := { self.PAD_8 with
      data2 := toUChar |(self.PAD_8.data2 : Int) - controlValue| } }
  | .KNOB_1 => { self with KNOB_1_LOW := { self.KNOB_1_LOW with
      data2 := toUChar controlValue } }
  | .KNOB_2 => { self with KNOB_2_LOW := { self.KNOB_2_LOW with
      data2 := toUChar controlValue } }
  | .KNOB_3 => { self with KNOB_3_LOW := { self.KNOB_3_LOW with
      data2 := toUChar controlValue } }
  | .KNOB_4 => { self with KNOB_4_LOW := { self.KNOB_4_LOW with
      data2 := toUChar controlValue } }
  | .KNOB_5 => { self with KNOB_5_LOW := { self.KNOB_5_LOW with
      data2 := toUChar controlValue } }
  | .KNOB_6 => { self with KNOB_6_LOW := { self.KNOB_6_LOW with
      data2 := toUChar controlValue } }
  | .KNOB_7 => { self with KNOB_7_LOW := { self.KNOB_7_LOW with
      data2 := toUChar controlValue } }
  | .KNOB_8 => { self with KNOB_8_LOW := { self.KNOB_8_LOW with
      data2 := toUChar controlValue } }
  | .KNOB_9 => { self with KNOB_1_UPPER := { self.KNOB_1_UPPER with
      data2 := toUChar controlValue } }
  | .KNOB_10 => { self with KNOB_2_UPPER := { self.KNOB_2_UPPER with
      data2 := toUChar controlValue } }
  | .KNOB_11 => { self with KNOB_3_UPPER := { self.KNOB_3_UPPER with
      data2 := toUChar controlValue } }
  | .KNOB_12 => { self with KNOB_4_UPPER := { self.KNOB_4_UPPER with
      data2 := toUChar controlValue } }
  | .KNOB_13 => { self with KNOB_5_UPPER := { self.KNOB_5_UPPER with
      data2 := toUChar controlValue } }
  | .KNOB_14 => { self with KNOB_6_UPPER := { self.KNOB_6_UPPER with
      data2 := toUChar controlValue } }
  | .KNOB_15 => { self with KNOB_7_UPPER := { self.KNOB_7_UPPER with
      data2 := toUChar controlValue } }
  | .KNOB_16 => { self with KNOB_8_UPPER := { self.KNOB_8_UPPER with
      data2 := toUChar controlValue } }
  | .UNKNOWN => self

/-- Classify the messages of a list one after the other, stopping at the first
failure. -/
def runMessages (self : LaunchControl) : List (List Nat) → Except Error Unit × LaunchControl
  | [] => (.ok (), self)
  | m :: ms =>
    match messageToControl self m with
    | (.error e, self1) => (.error e, self1)
    | (.ok _, self1) => runMessages self1 ms

/-- The messages of `n` presses of the pad with data byte `d`: each press is a
value-127 message followed by a value-0 release message. -/
def pressRelease (d : Nat) : Nat → List (List Nat)
  | 0 => []
  | n + 1 => [152, d, 127] :: [152, d, 0] :: pressRelease d n

/-- The array member `SYSEX_ID`, as a byte sequence. -/
def SYSEX_ID (self : LaunchControl) : List Nat :=
  [self.SYSEX_ID0, self.SYSEX_ID1, self.SYSEX_ID2]

/-- The labels of the specification: the pads are numbered 1 to 8, the knobs 1 to
16 with the lower bank first, the sentinel is named as such. -/
def controlLabel : Controls → String
  | .PAD1 => "PAD 1"
  | .PAD2 => "PAD 2"
  | .PAD3 => "PAD 3"
  | .PAD4 => "PAD 4"
  | .PAD5 => "PAD 5"
  | .PAD6 => "PAD 6"
  | .PAD7 => "PAD 7"
  | .PAD8 => "PAD 8"
  | .KNOB_1 => "KNOB 1"
  | .KNOB_2 => "KNOB 2"
  | .KNOB_3 => "KNOB 3"
  | .KNOB_4 => "KNOB 4"
  | .KNOB_5 => "KNOB 5"
  | .KNOB_6 => "KNOB 6"
  | .KNOB_7 => "KNOB 7"
  | .KNOB_8 => "KNOB 8"
  | .KNOB_9 => "KNOB 9"
  | .KNOB_10 => "KNOB 10"
  | .KNOB_11 => "KNOB 11"
  | .KNOB_12 => "KNOB 12"
  | .KNOB_13 => "KNOB 13"
  | .KNOB_14 => "KNOB 14"
  | .KNOB_15 => "KNOB 15"
  | .KNOB_16 => "KNOB 16"
  | .UNKNOWN => "UNKNOWN"

/-- Hand the messages of a list to `midiInCallback` one after the other, stopping
at the first failure; the sent messages are collected in order. -/
def runCallbacks (self : LaunchControl) :
    List (List Nat) → Except Error Unit × LaunchControl × List (List Nat)
  | [] => (.ok (), self, [])
  | m :: ms =>
    match midiInCallback self m with
    | (.error e, self1, sent) => (.error e, self1, sent)
    | (.ok _, self1, sent) =>
      match runCallbacks self1 ms with
      | (r, self2, sent2) => (r, self2, sent ++ sent2)

/-- The LED messages that the toggle branch of `midiInCallback` sends for the
classified control, reading the object as it is after the call of
`getControlName`. -/
def ledMessages (self : LaunchControl) (control : Controls) : List (List Nat) :=
  match controlValues self control with
  | none => []
  | some controlValue =>
    (if controlValue.data2 = 127 then [setPadColor self (control.toNat : Int) .RedFull]
      else []) ++
    (if controlValue.data2 = 0 then [setPadColor self (control.toNat : Int) .Off]
      else [])

/-! ## Basic facts -/

theorem memcmp_two (a b c x y z : Nat) :
    memcmp [a, b, c] [x, y, z] 2 = 0 ↔ a = x ∧ b = y := by
  unfold memcmp
  by_cases h : a = x
  · by_cases h2 : b = y
    · simp [h, h2, memcmp]
    · simp only [h, if_true, true_and]
      unfold memcmp
      simp only [h2, if_false]
      simp only [h2, and_false, iff_false]
      omega
  · simp only [h, if_false, false_and, iff_false]
    omega

theorem toUChar_natCast (v : Nat) (hv : v < 256) : toUChar (v : Int) = v := by
  unfold toUChar
  omega

theorem toUChar_abs_sub (s v : Nat) (hs : s < 256) (hv : v < 256) :
    toUChar |(s : Int) - (v : Int)| = Int.natAbs ((s : Int) - (v : Int)) := by
  unfold toUChar
  rcases abs_cases ((s : Int) - (v : Int)) with ⟨h, _⟩ | ⟨h, _⟩ <;> rw [h] <;> omega

theorem registered_iff (self : LaunchControl) :
    Registered self ↔
      (self.PAD_1.data0 = 152 ∧ self.PAD_1.data1 = 9) ∧
      (self.PAD_2.data0 = 152 ∧ self.PAD_2.data1 = 10) ∧
      (self.PAD_3.data0 = 152 ∧ self.PAD_3.data1 = 11) ∧
      (self.PAD_4.data0 = 152 ∧ self.PAD_4.data1 = 12) ∧
      (self.PAD_5.data0 = 152 ∧ self.PAD_5.data1 = 25) ∧
      (self.PAD_6.data0 = 152 ∧ self.PAD_6.data1 = 26) ∧
      (self.PAD_7.data0 = 152 ∧ self.PAD_7.data1 = 27) ∧
      (self.PAD_8.data0 = 152 ∧ self.PAD_8.data1 = 28) ∧
      (self.KNOB_1_LOW.data0 = 184 ∧ self.KNOB_1_LOW.data1 = 41) ∧
      (self.KNOB_2_LOW.data0 = 184 ∧ self.KNOB_2_LOW.data1 = 42) ∧
      (self.KNOB_3_LOW.data0 = 184 ∧ self.KNOB_3_LOW.data1 = 43) ∧
      (self.KNOB_4_LOW.data0 = 184 ∧ self.KNOB_4_LOW.data1 = 44) ∧
      (self.KNOB_5_LOW.data0 = 184 ∧ self.KNOB_5_LOW.data1 = 45) ∧
      (self.KNOB_6_LOW.data0 = 184 ∧ self.KNOB_6_LOW.data1 = 46) ∧
      (self.KNOB_7_LOW.data0 = 184 ∧ self.KNOB_7_LOW.data1 = 47) ∧
      (self.KNOB_8_LOW.data0 = 184 ∧ self.KNOB_8_LOW.data1 = 48) ∧
      (self.KNOB_1_UPPER.data0 = 184 ∧ self.KNOB_1_UPPER.data1 = 21) ∧
      (self.KNOB_2_UPPER.data0 = 184 ∧ self.KNOB_2_UPPER.data1 = 22) ∧
      (self.KNOB_3_UPPER.data0 = 184 ∧ self.KNOB_3_UPPER.data1 = 23) ∧
      (self.KNOB_4_UPPER.data0 = 184 ∧ self.KNOB_4_UPPER.data1 = 24) ∧
      (self.KNOB_5_UPPER.data0 = 184 ∧ self.KNOB_5_UPPER.data1 = 25) ∧
      (self.KNOB_6_UPPER.data0 = 184 ∧ self.KNOB_6_UPPER.data1 = 26) ∧
      (self.KNOB_7_UPPER.data0 = 184 ∧ self.KNOB_7_UPPER.data1 = 27) ∧
      (self.KNOB_8_UPPER.data0 = 184 ∧ self.KNOB_8_UPPER.data1 = 28) := by
  simp [Registered, addresses, construct]

/-- The classifier on a three-byte message: the control is the first match of
the chain, the object is updated by that branch's assignment. -/
theorem messageToControl_three (self : LaunchControl) (s d v : Nat) :
    messageToControl self [s, d, v] =
      (.ok (firstMatch self s d), writeBack self (firstMatch self s d) (v : Int)) := by
  unfold messageToControl firstMatch
  simp only [vecIndex, vecAt, List.get?, Pad.data, Knob.data, memcmp_two]
  apply Prod.ext
  · simp only [apply_ite Prod.fst, apply_ite (@Except.ok Error Controls)]
  · simp only [apply_ite Prod.snd, apply_ite (fun c => writeBack self c (v : Int))]
    rfl

theorem firstMatch_registered (self : LaunchControl) (s d : Nat) (h : Registered self) :
    firstMatch self s d = controlTable s d := by
  rw [registered_iff] at h
  obtain ⟨⟨a1, b1⟩, ⟨a2, b2⟩, ⟨a3, b3⟩, ⟨a4, b4⟩, ⟨a5, b5⟩, ⟨a6, b6⟩, ⟨a7, b7⟩, ⟨a8, b8⟩,
    ⟨a9, b9⟩, ⟨a10, b10⟩, ⟨a11, b11⟩, ⟨a12, b12⟩, ⟨a13, b13⟩, ⟨a14, b14⟩, ⟨a15, b15⟩,
    ⟨a16, b16⟩, ⟨a17, b17⟩, ⟨a18, b18⟩, ⟨a19, b19⟩, ⟨a20, b20⟩, ⟨a21, b21⟩, ⟨a22, b22⟩,
    ⟨a23, b23⟩, ⟨a24, b24⟩⟩ := h
  unfold firstMatch controlTable
  simp only [a1, b1, a2, b2, a3, b3, a4, b4, a5, b5, a6, b6, a7, b7, a8, b8, a9, b9, a10, b10,
    a11, b11, a12, b12, a13, b13, a14, b14, a15, b15, a16, b16, a17, b17, a18, b18, a19, b19,
    a20, b20, a21, b21, a22, b22, a23, b23, a24, b24]
  by_cases hs : s = 152
  · subst hs
    simp
  · by_cases hs2 : s = 184
    · subst hs2
      simp
    · simp [hs, hs2]

theorem writeBack_addresses (self : LaunchControl) (c : Controls) (x : Int) :
    addresses (writeBack self c x) = addresses self := by
  cases c <;> rfl

theorem writeBack_forceToggleMode (self : LaunchControl) (c : Controls) (x : Int) :
    (writeBack self c x).forceToggleMode = self.forceToggleMode := by
  cases c <;> rfl

theorem writeBack_logMode (self : LaunchControl) (c : Controls) (x : Int) :
    (writeBack self c x).logMode = self.logMode := by
  cases c <;> rfl

theorem writeBack_registered (self : LaunchControl) (c : Controls) (x : Int)
    (h : Registered self) : Registered (writeBack self c x) := by
  unfold Registered at *
  rw [writeBack_addresses, writeBack_forceToggleMode, writeBack_logMode]
  exact h

theorem member_writeBack_ne (self : LaunchControl) (c c' : Controls) (x : Int) (h : c' ≠ c) :
    member (writeBack self c x) c' = member self c' := by
  cases c <;> cases c' <;> first | rfl | exact absurd rfl h

theorem storedValue_writeBack_knob (self : LaunchControl) (c : Controls) (x : Int)
    (h : isKnob c = true) : storedValue (writeBack self c x) c = some (toUChar x) := by
  cases c <;> first | rfl | exact absurd h (by decide)

theorem storedValue_writeBack_pad (self : LaunchControl) (c : Controls) (x : Int) (s : Nat)
    (h : isPad c = true) (hs : storedValue self c = some s) :
    storedValue (writeBack self c x) c = some (toUChar |(s : Int) - x|) := by
  cases c <;> first | exact absurd h (by decide) | (simp only [storedValue, member, Option.map_some', Option.some.injEq] at hs; subst hs; rfl)

theorem addressOf_construct (toggleMode : Bool) (logModeMember : LogMode) (c : Controls) :
    addressOf (construct toggleMode logModeMember) c = addressOf (construct false .ERR) c := by
  cases c <;> rfl

theorem addressOf_registered (self : LaunchControl) (h : Registered self) (c : Controls) :
    addressOf self c = addressOf (construct false .ERR) c := by
  rw [registered_iff] at h
  obtain ⟨⟨a1, b1⟩, ⟨a2, b2⟩, ⟨a3, b3⟩, ⟨a4, b4⟩, ⟨a5, b5⟩, ⟨a6, b6⟩, ⟨a7, b7⟩, ⟨a8, b8⟩,
    ⟨a9, b9⟩, ⟨a10, b10⟩, ⟨a11, b11⟩, ⟨a12, b12⟩, ⟨a13, b13⟩, ⟨a14, b14⟩, ⟨a15, b15⟩,
    ⟨a16, b16⟩, ⟨a17, b17⟩, ⟨a18, b18⟩, ⟨a19, b19⟩, ⟨a20, b20⟩, ⟨a21, b21⟩, ⟨a22, b22⟩,
    ⟨a23, b23⟩, ⟨a24, b24⟩⟩ := h
  cases c <;> simp only [addressOf, member, Option.map_some', Option.map_none', *] <;> rfl

theorem firstMatch_addressOf (self : LaunchControl) (h : Registered self) (c : Controls)
    (s d : Nat) (ha : addressOf self c = some (s, d)) : firstMatch self s d = c := by
  rw [firstMatch_registered self s d h]
  rw [addressOf_registered self h] at ha
  cases c <;> cases ha <;> rfl

theorem knob_address (self : LaunchControl) (h : Registered self) (k : Controls)
    (hk : isKnob k = true) : ∃ d, addressOf self k = some (184, d) := by
  rw [addressOf_registered self h]
  cases k <;> first | exact absurd hk (by decide) | exact ⟨_, rfl⟩

theorem pad_address (self : LaunchControl) (h : Registered self) (p : Controls)
    (hp : isPad p = true) : ∃ d, addressOf self p = some (152, d) := by
  rw [addressOf_registered self h]
  cases p <;> first | exact absurd hp (by decide) | exact ⟨_, rfl⟩

theorem messageToControl_firstThree (self : LaunchControl) (a b c : Nat) (rest : List Nat) :
    messageToControl self (a :: b :: c :: rest) = messageToControl self [a, b, c] := rfl

theorem addressOf_writeBack (self : LaunchControl) (h : Registered self) (c c' : Controls)
    (x : Int) : addressOf (writeBack self c x) c' = addressOf self c' := by
  rw [addressOf_registered _ (writeBack_registered self c x h), addressOf_registered self h]

theorem runMessages_cons_three (self : LaunchControl) (s d v : Nat) (ms : List (List Nat)) :
    runMessages self ([s, d, v] :: ms) =
      runMessages (writeBack self (firstMatch self s d) (v : Int)) ms := by
  rw [runMessages, messageToControl_three]

theorem addresses_construct (toggleMode : Bool) (logModeMember : LogMode) :
    addresses (construct toggleMode logModeMember) = addresses (construct false .ERR) := rfl

theorem registered_nodup (self : LaunchControl) (h : Registered self) :
    (addresses self).Nodup := by
  unfold Registered at h
  rw [h, addresses_construct]
  decide

theorem runMessages_knob (k : Controls) (d : Nat) (hk : isKnob k = true) :
    ∀ (vs : List Nat) (hne : vs ≠ []) (self : LaunchControl), Registered self →
      addressOf self k = some (184, d) → (∀ x ∈ vs, x < 256) →
      (runMessages self (vs.map fun x => [184, d, x])).1 = .ok () ∧
      storedValue (runMessages self (vs.map fun x => [184, d, x])).2 k =
        some (vs.getLast hne) := by
  intro vs
  induction vs with
  | nil => intro hne; exact absurd rfl hne
  | cons x xs ih =>
    intro hne self h ha hlt
    rw [List.map_cons, runMessages_cons_three, firstMatch_addressOf self h k 184 d ha]
    cases xs with
    | nil =>
      refine ⟨rfl, ?_⟩
      simp only [List.map_nil, runMessages, List.getLast_singleton]
      rw [storedValue_writeBack_knob self k _ hk,
        toUChar_natCast x (hlt x (List.mem_cons_self x []))]
    | cons y ys =>
      have hne2 : y :: ys ≠ [] := List.cons_ne_nil y ys
      have h2 := ih hne2 (writeBack self k (x : Int)) (writeBack_registered self k _ h)
        (by rw [addressOf_writeBack self h]; exact ha)
        (fun z hz => hlt z (List.mem_cons_of_mem x hz))
      rw [List.getLast_cons hne2]
      exact h2

theorem pad_step (self : LaunchControl) (p : Controls) (d s v : Nat) (h : Registered self)
    (hp : isPad p = true) (ha : addressOf self p = some (152, d))
    (hs : storedValue self p = some s) (hs256 : s < 256) (hv : v < 256) :
    storedValue (writeBack self (firstMatch self 152 d) (v : Int)) p =
      some (Int.natAbs ((s : Int) - (v : Int))) := by
  rw [firstMatch_addressOf self h p 152 d ha, storedValue_writeBack_pad self p _ s hp hs,
    toUChar_abs_sub s v hs256 hv]

theorem runMessages_pressRelease (p : Controls) (d : Nat) (hp : isPad p = true) :
    ∀ (n : Nat) (self : LaunchControl) (s : Nat), Registered self →
      addressOf self p = some (152, d) → storedValue self p = some s → (s = 0 ∨ s = 127) →
      (runMessages self (pressRelease d n)).1 = .ok () ∧
      storedValue (runMessages self (pressRelease d n)).2 p =
        some (if n % 2 = 0 then s else 127 - s) := by
  intro n
  induction n with
  | zero =>
    intro self s _ _ hs _
    exact ⟨rfl, hs⟩
  | succ n ih =>
    intro self s h ha hs hs01
    rw [pressRelease, runMessages_cons_three, runMessages_cons_three]
    have h1 : Registered (writeBack self (firstMatch self 152 d) ((127 : Nat) : Int)) :=
      writeBack_registered self _ _ h
    have ha1 : addressOf (writeBack self (firstMatch self 152 d) ((127 : Nat) : Int)) p =
        some (152, d) := by
      rw [addressOf_writeBack self h]; exact ha
    have hs1 : storedValue (writeBack self (firstMatch self 152 d) ((127 : Nat) : Int)) p =
        some (127 - s) := by
      rw [pad_step self p d s 127 h hp ha hs (by omega) (by omega)]
      congr 1
      omega
    have h2 := writeBack_registered _
      (firstMatch (writeBack self (firstMatch self 152 d) ((127 : Nat) : Int)) 152 d)
      ((0 : Nat) : Int) h1
    have ha2 := (addressOf_writeBack _ h1
      (firstMatch (writeBack self (firstMatch self 152 d) ((127 : Nat) : Int)) 152 d) p
      ((0 : Nat) : Int)).trans ha1
    have hs2 := pad_step _ p d (127 - s) 0 h1 hp ha1 hs1 (by omega) (by omega)
    have hs2' : Int.natAbs (((127 - s : Nat) : Int) - ((0 : Nat) : Int)) = 127 - s := by omega
    rw [hs2'] at hs2
    obtain ⟨r1, r2⟩ := ih _ (127 - s) h2 ha2 hs2 (by omega)
    refine ⟨r1, ?_⟩
    rw [r2]
    congr 1
    split_ifs <;> omega

/-! ## The claims -/

/-- Claim C1: on every three-byte message `[s, d, v]`, for an object whose address
bytes are the constructor's, `messageToControl` returns the control that the fixed table
gives for `(s, d)`; the table takes neither the value byte `v` nor the stored values. -/
theorem messageToControl_eq_controlTable (self : LaunchControl) (s d v : Nat)
    (h : Registered self) :
    (messageToControl self [s, d, v]).1 = .ok (controlTable s d) := by
  rw [messageToControl_three, firstMatch_registered self s d h]

theorem messageToControl_eq_controlTable_witness :
    Registered (construct true .ERR) ∧
      (messageToControl (construct true .ERR) [152, 25, 127]).1 = .ok (controlTable 152 25) :=
  ⟨by decide, messageToControl_eq_controlTable (construct true .ERR) 152 25 127 (by decide)⟩

/-- Claim C2: each of the 24 real controls has an address `(s, d)` set by the
constructor; on every object with the constructor's addresses and for every value byte,
`messageToControl [s, d, v]` returns that control; no other control has that address, and
the addresses compared by the chain are pairwise distinct, so at most one branch can
match a message. -/
theorem registry_roundtrip (toggleMode : Bool) (logModeMember : LogMode) (c : Controls)
    (hc : c ≠ .UNKNOWN) :
    ∃ s d, addressOf (construct toggleMode logModeMember) c = some (s, d) ∧
      (∀ (self : LaunchControl) (v : Nat), Registered self →
        (messageToControl self [s, d, v]).1 = .ok c) ∧
      (∀ c', addressOf (construct toggleMode logModeMember) c' = some (s, d) → c' = c) ∧
      (∀ (self : LaunchControl), Registered self → (addresses self).Nodup) := by
  have hround : ∀ s d, controlTable s d = c → ∀ (self : LaunchControl) (v : Nat),
      Registered self → (messageToControl self [s, d, v]).1 = .ok c := by
    intro s d hsd self v h
    rw [messageToControl_three, firstMatch_registered self s d h, hsd]
  simp only [addressOf_construct]
  cases c
  case UNKNOWN => exact absurd rfl hc
  all_goals
    refine ⟨_, _, rfl, hround _ _ (by decide), ?_, registered_nodup⟩
    intro c' h'
    cases c' <;> first | rfl | exact absurd h' (by decide)

theorem registry_roundtrip_witness :
    Controls.KNOB_9 ≠ Controls.UNKNOWN ∧
    ∃ s d, addressOf (construct true .ERR) .KNOB_9 = some (s, d) ∧
      (∀ (self : LaunchControl) (v : Nat), Registered self →
        (messageToControl self [s, d, v]).1 = .ok .KNOB_9) ∧
      (∀ c', addressOf (construct true .ERR) c' = some (s, d) → c' = .KNOB_9) ∧
      (∀ (self : LaunchControl), Registered self → (addresses self).Nodup) :=
  ⟨by decide, registry_roundtrip true .ERR .KNOB_9 (by decide)⟩

/-- Claim C3: a three-byte message whose two leading bytes are not one of the 24
addresses set by the constructor is classified as `UNKNOWN`, and the object (so every
stored value) is left as it was. -/
theorem messageToControl_unregistered (self : LaunchControl) (s d v : Nat)
    (h : Registered self)
    (hn : (s, d) ∉ addresses (construct self.forceToggleMode self.logMode)) :
    messageToControl self [s, d, v] = (.ok .UNKNOWN, self) := by
  unfold Registered at h
  rw [← h] at hn
  have hf : firstMatch self s d = .UNKNOWN := by
    simp only [addresses, List.mem_cons, Prod.mk.injEq, not_or, List.mem_nil_iff,
      List.mem_singleton] at hn
    simp only [firstMatch, hn, if_false]
  rw [messageToControl_three, hf]
  rfl

theorem messageToControl_unregistered_witness :
    Registered (construct true .ERR) ∧
    (176, 0) ∉ addresses (construct (construct true .ERR).forceToggleMode
      (construct true .ERR).logMode) ∧
    messageToControl (construct true .ERR) [176, 0, 0] =
      (.ok .UNKNOWN, construct true .ERR) :=
  ⟨by decide, by decide,
    messageToControl_unregistered (construct true .ERR) 176 0 0 (by decide) (by decide)⟩

/-- Claim C4: for every knob `k` with address `(184, d)` and every value byte `v`,
after `messageToControl [184, d, v]` the stored value of `k` is `v`, whatever it was
before; after a non-empty sequence of such messages it is the value byte of the last
one. -/
theorem knob_overwrite (self : LaunchControl) (k : Controls) (h : Registered self)
    (hk : isKnob k = true) :
    ∃ d, addressOf self k = some (184, d) ∧
      (∀ v, v < 256 → storedValue (messageToControl self [184, d, v]).2 k = some v) ∧
      (∀ (vs : List Nat) (hne : vs ≠ []), (∀ x ∈ vs, x < 256) →
        (runMessages self (vs.map fun x => [184, d, x])).1 = .ok () ∧
        storedValue (runMessages self (vs.map fun x => [184, d, x])).2 k =
          some (vs.getLast hne)) := by
  obtain ⟨d, ha⟩ := knob_address self h k hk
  refine ⟨d, ha, ?_, ?_⟩
  · intro v hv
    rw [messageToControl_three, firstMatch_addressOf self h k 184 d ha]
    show storedValue (writeBack self k (v : Int)) k = some v
    rw [storedValue_writeBack_knob self k _ hk, toUChar_natCast v hv]
  · intro vs hne hlt
    exact runMessages_knob k d hk vs hne self h ha hlt

theorem knob_overwrite_witness :
    Registered (construct false .ERR) ∧ isKnob .KNOB_1 = true ∧
    storedValue (runMessages (construct false .ERR) [[184, 41, 10], [184, 41, 77]]).2 .KNOB_1 =
      some 77 ∧
    ∃ d, addressOf (construct false .ERR) .KNOB_1 = some (184, d) ∧
      (∀ v, v < 256 →
        storedValue (messageToControl (construct false .ERR) [184, d, v]).2 .KNOB_1 = some v) ∧
      (∀ (vs : List Nat) (hne : vs ≠ []), (∀ x ∈ vs, x < 256) →
        (runMessages (construct false .ERR) (vs.map fun x => [184, d, x])).1 = .ok () ∧
        storedValue (runMessages (construct false .ERR) (vs.map fun x => [184, d, x])).2
          .KNOB_1 = some (vs.getLast hne)) :=
  ⟨by decide, by decide, by decide,
    knob_overwrite (construct false .ERR) .KNOB_1 (by decide) (by decide)⟩

/-- Claim C5: for every pad `p` with address `(152, d)`, stored byte `s` and value
byte `v`, after `messageToControl [152, d, v]` the stored value of `p` is exactly the
absolute difference of `s` and `v`, which is again a byte, so nothing wraps when it is
written back. -/
theorem pad_abs_diff (self : LaunchControl) (p : Controls) (s : Nat) (h : Registered self)
    (hp : isPad p = true) (hs : storedValue self p = some s) (hs256 : s < 256) :
    ∃ d, addressOf self p = some (152, d) ∧
      ∀ v, v < 256 →
        storedValue (messageToControl self [152, d, v]).2 p =
          some (Int.natAbs ((s : Int) - (v : Int))) ∧
        Int.natAbs ((s : Int) - (v : Int)) < 256 := by
  obtain ⟨d, ha⟩ := pad_address self h p hp
  refine ⟨d, ha, ?_⟩
  intro v hv
  rw [messageToControl_three, firstMatch_addressOf self h p 152 d ha]
  refine ⟨?_, by omega⟩
  show storedValue (writeBack self p (v : Int)) p = _
  rw [storedValue_writeBack_pad self p _ s hp hs, toUChar_abs_sub s v hs256 hv]

theorem pad_abs_diff_witness :
    Registered { construct false .ERR with PAD_1 := ⟨152, 9, 0⟩ } ∧
    isPad .PAD1 = true ∧
    storedValue { construct false .ERR with PAD_1 := ⟨152, 9, 0⟩ } .PAD1 = some 0 ∧
    storedValue (messageToControl { construct false .ERR with PAD_1 := ⟨152, 9, 0⟩ }
      [152, 9, 127]).2 .PAD1 = some 127 ∧
    storedValue (runMessages { construct false .ERR with PAD_1 := ⟨152, 9, 0⟩ }
      [[152, 9, 127], [152, 9, 0]]).2 .PAD1 = some 127 ∧
    ∃ d, addressOf { construct false .ERR with PAD_1 := ⟨152, 9, 0⟩ } .PAD1 = some (152, d) ∧
      ∀ v, v < 256 →
        storedValue (messageToControl { construct false .ERR with PAD_1 := ⟨152, 9, 0⟩ }
          [152, d, v]).2 .PAD1 = some (Int.natAbs (((0 : Nat) : Int) - (v : Int))) ∧
        Int.natAbs (((0 : Nat) : Int) - (v : Int)) < 256 :=
  ⟨by decide, by decide, by decide, by decide, by decide,
    pad_abs_diff { construct false .ERR with PAD_1 := ⟨152, 9, 0⟩ } .PAD1 0 (by decide)
      (by decide) (by decide) (by decide)⟩

/-- Claim C6: for a pad whose stored value `s` is 0 or 127, a message with value
`v` in 0, 127 leaves the stored value equal to the bitwise exclusive or of `s` and `v`,
again 0 or 127; value 0 leaves it unchanged, value 127 flips it; after `n` press and
release pairs the stored value is the starting value exactly when `n` is even. -/
theorem pad_toggle (self : LaunchControl) (p : Controls) (s : Nat) (h : Registered self)
    (hp : isPad p = true) (hs : storedValue self p = some s) (hs01 : s = 0 ∨ s = 127) :
    ∃ d, addressOf self p = some (152, d) ∧
      (∀ v, v = 0 ∨ v = 127 →
        storedValue (messageToControl self [152, d, v]).2 p = some (s ^^^ v) ∧
        (s ^^^ v = 0 ∨ s ^^^ v = 127)) ∧
      storedValue (messageToControl self [152, d, 0]).2 p = some s ∧
      storedValue (messageToControl self [152, d, 127]).2 p = some (127 - s) ∧
      ∀ n, (runMessages self (pressRelease d n)).1 = .ok () ∧
        (storedValue (runMessages self (pressRelease d n)).2 p = some s ↔ Even n) := by
  obtain ⟨d, ha⟩ := pad_address self h p hp
  have hstep : ∀ v, v < 256 → storedValue (messageToControl self [152, d, v]).2 p =
      some (Int.natAbs ((s : Int) - (v : Int))) := by
    intro v hv
    rw [messageToControl_three]
    exact pad_step self p d s v h hp ha hs (by omega) hv
  refine ⟨d, ha, ?_, ?_, ?_, ?_⟩
  · intro v hv
    rw [hstep v (by omega)]
    rcases hs01 with rfl | rfl <;> rcases hv with rfl | rfl <;> decide
  · rw [hstep 0 (by omega)]
    congr 1
  · rw [hstep 127 (by omega)]
    congr 1
    omega
  · intro n
    obtain ⟨r1, r2⟩ := runMessages_pressRelease p d hp n self s h ha hs hs01
    refine ⟨r1, ?_⟩
    rw [r2, Nat.even_iff]
    constructor
    · intro he
      by_contra hn
      rw [if_neg hn] at he
      have := Option.some.inj he
      omega
    · intro he
      rw [if_pos he]

theorem pad_toggle_witness :
    Registered (construct true .ERR) ∧ isPad .PAD1 = true ∧
    storedValue (construct true .ERR) .PAD1 = some 127 ∧ ((127 : Nat) = 0 ∨ (127 : Nat) = 127) ∧
    ∃ d, addressOf (construct true .ERR) .PAD1 = some (152, d) ∧
      (∀ v, v = 0 ∨ v = 127 →
        storedValue (messageToControl (construct true .ERR) [152, d, v]).2 .PAD1 =
          some (127 ^^^ v) ∧
        (127 ^^^ v = 0 ∨ 127 ^^^ v = 127)) ∧
      storedValue (messageToControl (construct true .ERR) [152, d, 0]).2 .PAD1 = some 127 ∧
      storedValue (messageToControl (construct true .ERR) [152, d, 127]).2 .PAD1 =
        some (127 - 127) ∧
      ∀ n, (runMessages (construct true .ERR) (pressRelease d n)).1 = .ok () ∧
        (storedValue (runMessages (construct true .ERR) (pressRelease d n)).2 .PAD1 =
          some 127 ↔ Even n) :=
  ⟨by decide, by decide, by decide, by decide,
    pad_toggle (construct true .ERR) .PAD1 127 (by decide) (by decide) (by decide) (by decide)⟩

/-- Claim C7: when `messageToControl` classifies a message as control `c`, the
address bytes of all 24 members are unchanged and the three bytes of every member other
than the one of `c` are unchanged, so the only byte of the table that can change is the
stored value of `c`; the modes are unchanged too. -/
theorem messageToControl_frame (self : LaunchControl) (s d v : Nat) :
    ∃ c, (messageToControl self [s, d, v]).1 = .ok c ∧
      addresses (messageToControl self [s, d, v]).2 = addresses self ∧
      (∀ c', c' ≠ c → member (messageToControl self [s, d, v]).2 c' = member self c') ∧
      (messageToControl self [s, d, v]).2.forceToggleMode = self.forceToggleMode ∧
      (messageToControl self [s, d, v]).2.logMode = self.logMode := by
  rw [messageToControl_three]
  refine ⟨_, rfl, writeBack_addresses _ _ _, ?_, writeBack_forceToggleMode _ _ _,
    writeBack_logMode _ _ _⟩
  intro c' hc'
  exact member_writeBack_ne _ _ _ _ hc'

/-- Claim C8, as the code behaves: on a message of fewer than three bytes
`messageToControl` does not reach the `out_of_range` failure of `message.at`; its first
statement reads `message[2]` outside the vector, which is undefined, and no assignment
to the object precedes that read.  On a message of at least three bytes it returns a
control. -/
theorem messageToControl_short (self : LaunchControl) (message : List Nat) :
    (message.length < 3 →
      messageToControl self message = (.error .undefined_behavior, self)) ∧
    (3 ≤ message.length → ∃ c, (messageToControl self message).1 = .ok c) := by
  constructor
  · intro h
    match message, h with
    | [], _ => rfl
    | [_], _ => rfl
    | [_, _], _ => rfl
  · intro h
    match message, h with
    | a :: b :: c :: rest, _ =>
      rw [messageToControl_firstThree, messageToControl_three]
      exact ⟨_, rfl⟩

theorem messageToControl_short_witness :
    messageToControl (construct true .ERR) [] =
      (.error .undefined_behavior, construct true .ERR) ∧
    ∃ c, (messageToControl (construct true .ERR) [184, 41, 5, 6]).1 = .ok c :=
  ⟨(messageToControl_short (construct true .ERR) []).1 (by decide),
    (messageToControl_short (construct true .ERR) [184, 41, 5, 6]).2 (by decide)⟩

/-- Claim C9, as the code behaves: on every inbound message of fewer than three
bytes `midiInCallback` does not complete.  Its guard `nBytes <= 3` lets the message
through to `messageToControl`, which reads `message[2]` outside the vector; that read is
undefined, and in a run where it goes through the checked `message.at` that follows
throws.  Nothing in the handler catches either; up to that point the object is
unchanged and nothing has been sent. -/
theorem midiInCallback_short (self : LaunchControl) (message : List Nat)
    (h : message.length < 3) :
    midiInCallback self message = (.error .undefined_behavior, self, []) ∧
    vecAt message 2 = .error .out_of_range := by
  match message, h with
  | [], _ => exact ⟨rfl, rfl⟩
  | [_], _ => exact ⟨rfl, rfl⟩
  | [_, _], _ => exact ⟨rfl, rfl⟩

theorem midiInCallback_short_witness :
    [248].length < 3 ∧
    midiInCallback (construct true .ERR) [248] =
      (.error .undefined_behavior, construct true .ERR, []) ∧
    vecAt [248] 2 = .error .out_of_range :=
  ⟨by decide, midiInCallback_short (construct true .ERR) [248] (by decide)⟩

/-- Claim C10: on every inbound message of more than three bytes, whatever its
leading bytes, `midiInCallback` completes, leaves the object (so every stored value)
unchanged and sends nothing. -/
theorem midiInCallback_long (self : LaunchControl) (message : List Nat)
    (h : 3 < message.length) : midiInCallback self message = (.ok (), self, []) := by
  unfold midiInCallback
  have hn : ¬ ((message.length : Int) ≤ 3) := by omega
  simp only [hn, if_false]

theorem midiInCallback_long_witness :
    3 < [152, 9, 127, 0].length ∧
    midiInCallback (construct true .ERR) [152, 9, 127, 0] =
      (.ok (), construct true .ERR, []) :=
  ⟨by decide, midiInCallback_long (construct true .ERR) [152, 9, 127, 0] (by decide)⟩

/-! ## Encoders, naming and the inbound handler -/

theorem foldl_push_range (l : List Nat) (acc : List Nat) :
    ∀ n, n ≤ l.length →
      (List.range n).foldl (fun acc i => acc ++ [l.getD i 0]) acc = acc ++ l.take n := by
  intro n
  induction n with
  | zero => intro _; simp
  | succ n ih =>
    intro hn
    have hlt : n < l.length := by omega
    rw [List.range_succ, List.foldl_append, ih (by omega)]
    simp only [List.foldl_cons, List.foldl_nil, List.append_assoc]
    congr 1
    rw [List.take_succ, List.getD_eq_getElem?_getD, List.getElem?_eq_getElem hlt]
    rfl

theorem GetSysExMessage_eq (self : LaunchControl) (dataBytes : List Nat) :
    GetSysExMessage self dataBytes =
      [0xF0, self.SYSEX_ID0, self.SYSEX_ID1, self.SYSEX_ID2] ++ dataBytes ++ [0xF7] := by
  unfold GetSysExMessage
  simp only [foldl_push_range dataBytes _ dataBytes.length (le_refl _), List.take_length]
  rfl

theorem getControlName_three (self : LaunchControl) (s d v : Nat) :
    getControlName self [s, d, v] =
      (.ok (controlLabel (firstMatch self s d)),
        writeBack self (firstMatch self s d) (v : Int)) := by
  unfold getControlName
  rw [messageToControl_three]
  generalize firstMatch self s d = c
  cases c <;> rfl

theorem midiInCallback_toggle_press :
    midiInCallback (construct true .ERR) [152, 9, 127] =
      (.ok (), construct true .ERR,
        [[0xF0, 0x00, 0x20, 0x29, 0x02, 0x0A, 0x78, 0x08, 0x00, 0x0F, 0xF7]]) := by
  decide

theorem midiInCallback_toggle_release :
    midiInCallback (construct true .ERR) [152, 9, 0] =
      (.ok (), construct true .ERR,
        [[0xF0, 0x00, 0x20, 0x29, 0x02, 0x0A, 0x78, 0x08, 0x00, 0x0F, 0xF7]]) := by
  decide

/-- Claim C11: with the manufacturer identifier set by the constructor, for every
payload, the empty one included, `GetSysExMessage` is the byte F0, the bytes 00 20 29,
the payload in order and the byte F7; its length is the payload length plus 5. -/
theorem GetSysExMessage_frame (self : LaunchControl) (p : List Nat)
    (h : SYSEX_ID self = [0x00, 0x20, 0x29]) :
    GetSysExMessage self p = [0xF0, 0x00, 0x20, 0x29] ++ p ++ [0xF7] ∧
      (GetSysExMessage self p).length = p.length + 5 := by
  simp only [SYSEX_ID, List.cons.injEq, and_true] at h
  obtain ⟨h0, h1, h2⟩ := h
  rw [GetSysExMessage_eq, h0, h1, h2]
  refine ⟨rfl, ?_⟩
  simp only [List.length_append, List.length_cons, List.length_nil]
  omega

theorem GetSysExMessage_frame_witness :
    SYSEX_ID (construct true .ERR) = [0x00, 0x20, 0x29] ∧
    GetSysExMessage (construct true .ERR) [] = [0xF0, 0x00, 0x20, 0x29] ++ [] ++ [0xF7] ∧
    (GetSysExMessage (construct true .ERR) []).length = ([] : List Nat).length + 5 :=
  ⟨by decide, GetSysExMessage_frame (construct true .ERR) [] (by decide)⟩

/-- Claim C12: dropping the first four bytes and the last byte of
`GetSysExMessage p` gives back the payload `p`. -/
theorem GetSysExMessage_roundtrip (self : LaunchControl) (p : List Nat) :
    ((GetSysExMessage self p).drop 4).dropLast = p := by
  rw [GetSysExMessage_eq]
  simp

/-- Claim C13: for every pad number `n` (an `int`) and every colour, the message
`setPadColor` sends is the 11 bytes F0 00 20 29 02 0A 78 08 i c F7, where the index
byte `i` is `n` reduced modulo 256, which is `n` itself when `n` is between 0 and 255. -/
theorem setPadColor_bytes (self : LaunchControl) (n : Int) (c : ColorBrightnessEnum)
    (h : SYSEX_ID self = [0x00, 0x20, 0x29]) :
    setPadColor self n c =
      [0xF0, 0x00, 0x20, 0x29, 0x02, 0x0A, 0x78, 0x08, toUChar n, c.toNat, 0xF7] ∧
    (setPadColor self n c).length = 11 ∧
    toUChar n = (n % 256).toNat ∧
    (0 ≤ n → n ≤ 255 → (toUChar n : Int) = n) := by
  simp only [SYSEX_ID, List.cons.injEq, and_true] at h
  obtain ⟨h0, h1, h2⟩ := h
  have hb : setPadColor self n c =
      [0xF0, 0x00, 0x20, 0x29, 0x02, 0x0A, 0x78, 0x08, toUChar n, c.toNat, 0xF7] := by
    unfold setPadColor
    simp only [GetSysExMessage_eq, h0, h1, h2]
    rfl
  refine ⟨hb, by rw [hb]; rfl, rfl, ?_⟩
  intro h0 h255
  unfold toUChar
  omega

theorem setPadColor_bytes_witness :
    SYSEX_ID (construct true .ERR) = [0x00, 0x20, 0x29] ∧
    setPadColor (construct true .ERR) 0 .RedFull =
      [0xF0, 0x00, 0x20, 0x29, 0x02, 0x0A, 0x78, 0x08, 0x00, 0x0F, 0xF7] :=
  ⟨by decide, (setPadColor_bytes (construct true .ERR) 0 .RedFull (by decide)).1⟩

/-- Claim C14: for every template byte `t`, the message `setTemplate` sends is the
9 bytes F0 00 20 29 02 0A 77 t F7. -/
theorem setTemplate_bytes (self : LaunchControl) (t : Nat)
    (h : SYSEX_ID self = [0x00, 0x20, 0x29]) :
    setTemplate self t = [0xF0, 0x00, 0x20, 0x29, 0x02, 0x0A, 0x77, t, 0xF7] ∧
    (setTemplate self t).length = 9 := by
  simp only [SYSEX_ID, List.cons.injEq, and_true] at h
  obtain ⟨h0, h1, h2⟩ := h
  have hb : setTemplate self t = [0xF0, 0x00, 0x20, 0x29, 0x02, 0x0A, 0x77, t, 0xF7] := by
    unfold setTemplate
    simp only [GetSysExMessage_eq, h0, h1, h2]
    rfl
  exact ⟨hb, by rw [hb]; rfl⟩

theorem setTemplate_bytes_witness :
    SYSEX_ID (construct true .ERR) = [0x00, 0x20, 0x29] ∧
    setTemplate (construct true .ERR) 8 = [0xF0, 0x00, 0x20, 0x29, 0x02, 0x0A, 0x77, 8, 0xF7] ∧
    (setTemplate (construct true .ERR) 8).length = 9 :=
  ⟨by decide, setTemplate_bytes (construct true .ERR) 8 (by decide)⟩

/-- Claim C15: the message `resetLaunchControl t` sends is the three bytes
`(176 + t) mod 256, 0, 0`; for `t` at most 15 the status byte is `0xB0 + t`, between
B0 and BF, and the message has neither the F0 head nor the F7 tail; for a byte `t`
above 79 the status byte has wrapped to `176 + t - 256`. -/
theorem resetLaunchControl_bytes (t : Nat) :
    resetLaunchControl t = [(176 + t) % 256, 0x00, 0x00] ∧
    (t ≤ 15 → resetLaunchControl t = [0xB0 + t, 0x00, 0x00] ∧
      0xB0 ≤ 0xB0 + t ∧ 0xB0 + t ≤ 0xBF ∧
      (resetLaunchControl t).length = 3 ∧
      (resetLaunchControl t).head? ≠ some 0xF0 ∧
      (resetLaunchControl t).getLast? ≠ some 0xF7) ∧
    (79 < t → t < 256 → resetLaunchControl t = [176 + t - 256, 0x00, 0x00]) := by
  have hu : toUChar (176 + (t : Int)) = (176 + t) % 256 := by
    unfold toUChar
    omega
  have hb : resetLaunchControl t = [(176 + t) % 256, 0x00, 0x00] := by
    unfold resetLaunchControl
    rw [hu]
  refine ⟨hb, ?_, ?_⟩
  · intro ht
    have h1 : (176 + t) % 256 = 0xB0 + t := by omega
    rw [h1] at hb
    rw [hb]
    refine ⟨rfl, by omega, by omega, ?_, ?_, ?_⟩
    · simp only [List.length_cons, List.length_nil]
    · simp only [List.head?_cons, ne_eq, Option.some.injEq]
      omega
    · simp
  · intro h1 h2
    have h3 : (176 + t) % 256 = 176 + t - 256 := by omega
    rw [hb, h3]

theorem resetLaunchControl_bytes_witness :
    resetLaunchControl 0x08 = [0xB8, 0x00, 0x00] ∧
    resetLaunchControl 100 = [20, 0x00, 0x00] :=
  ⟨((resetLaunchControl_bytes 0x08).2.1 (by decide)).1,
    (resetLaunchControl_bytes 100).2.2 (by decide) (by decide)⟩

/-- Claim C16: on every three-byte message, for an object whose address bytes are
the constructor's, `getControlName` returns the label of the control the message
classifies to: PAD k for the k-th pad, KNOB k for `KNOB_k`, UNKNOWN for the sentinel;
the label is a function of the two leading bytes only. -/
theorem getControlName_label (self : LaunchControl) (s d v : Nat) (h : Registered self) :
    (messageToControl self [s, d, v]).1 = .ok (controlTable s d) ∧
    (getControlName self [s, d, v]).1 = .ok (controlLabel (controlTable s d)) := by
  rw [getControlName_three, messageToControl_three, firstMatch_registered self s d h]
  exact ⟨rfl, rfl⟩

theorem getControlName_label_witness :
    Registered (construct false .ERR) ∧
    (getControlName (construct false .ERR) [152, 11, 127]).1 = .ok "PAD 3" ∧
    (getControlName (construct false .ERR) [184, 21, 64]).1 = .ok "KNOB 9" ∧
    (messageToControl (construct false .ERR) [184, 21, 64]).1 = .ok (controlTable 184 21) ∧
    (getControlName (construct false .ERR) [184, 21, 64]).1 =
      .ok (controlLabel (controlTable 184 21)) :=
  ⟨by decide, by decide, by decide,
    getControlName_label (construct false .ERR) 184 21 64 (by decide)⟩

/-- Counterexample to claim C17: on the freshly constructed object `getControlName`
changes the stored value of `KNOB_1` from 0 to 5 on the message `[184, 41, 5]`, and the
stored value of `PAD1` from 127 to 0 on the message `[152, 9, 127]`. -/
theorem getControlName_not_pure :
    storedValue (construct false .ERR) .KNOB_1 = some 0 ∧
    storedValue (getControlName (construct false .ERR) [184, 41, 5]).2 .KNOB_1 = some 5 ∧
    storedValue (construct false .ERR) .PAD1 = some 127 ∧
    storedValue (getControlName (construct false .ERR) [152, 9, 127]).2 .PAD1 = some 0 := by
  decide

/-- Claim C17, amended: `getControlName` classifies the message, and on every
three-byte message it leaves the address bytes of all 24 members and the three bytes of
every member other than the classified control's unchanged; a message classified as
`UNKNOWN` leaves the object as it was; a message classified as a knob leaves that knob's
stored value equal to the value byte. -/
theorem getControlName_frame (self : LaunchControl) (s d v : Nat) :
    ∃ c, (messageToControl self [s, d, v]).1 = .ok c ∧
      addresses (getControlName self [s, d, v]).2 = addresses self ∧
      (∀ c', c' ≠ c → member (getControlName self [s, d, v]).2 c' = member self c') ∧
      (c = .UNKNOWN → (getControlName self [s, d, v]).2 = self) ∧
      (isKnob c = true → v < 256 →
        storedValue (getControlName self [s, d, v]).2 c = some v) := by
  rw [getControlName_three, messageToControl_three]
  refine ⟨_, rfl, writeBack_addresses _ _ _, ?_, ?_, ?_⟩
  · intro c' hc'
    exact member_writeBack_ne _ _ _ _ hc'
  · intro hc
    show writeBack self (firstMatch self s d) (v : Int) = self
    rw [hc]
    rfl
  · intro hk hv
    show storedValue (writeBack self (firstMatch self s d) (v : Int)) _ = some v
    rw [storedValue_writeBack_knob self _ _ hk, toUChar_natCast v hv]

/-- Claim C18, as the code behaves: from the freshly constructed object with toggle
mode on and log mode `ERR`, every message of `n` presses of pad 1 (value 127, then
value 0) makes `midiInCallback` send the colour RedFull (0F) for LED 0; the colour Off
is never sent and the object is back in its initial state after every message. -/
theorem toggle_led_always_red (n : Nat) :
    runCallbacks (construct true .ERR) (pressRelease 9 n) =
      (.ok (), construct true .ERR,
        List.replicate (2 * n)
          [0xF0, 0x00, 0x20, 0x29, 0x02, 0x0A, 0x78, 0x08, 0x00, 0x0F, 0xF7]) := by
  induction n with
  | zero => rfl
  | succ n ih =>
    rw [pressRelease, runCallbacks, midiInCallback_toggle_press]
    simp only []
    rw [runCallbacks, midiInCallback_toggle_release]
    simp only []
    rw [ih]
    have h2 : 2 * (n + 1) = (2 * n + 1) + 1 := by omega
    rw [h2, List.replicate_succ, List.replicate_succ]
    rfl

/-- Claim C19, as the code behaves: on the freshly constructed object with toggle
mode on, after `midiInCallback` on `[152, 9, 127]` the stored value of `PAD1` is 127,
after a single `messageToControl` on the same message it is 0; the two objects differ. -/
theorem midiInCallback_classifies_twice :
    storedValue (midiInCallback (construct true .ERR) [152, 9, 127]).2.1 .PAD1 = some 127 ∧
    storedValue (messageToControl (construct true .ERR) [152, 9, 127]).2 .PAD1 = some 0 ∧
    (midiInCallback (construct true .ERR) [152, 9, 127]).2.1 ≠
      (messageToControl (construct true .ERR) [152, 9, 127]).2 := by
  decide

/-- Claim C20: the eight colour values are 0C, 0D, 0F, 1D, 3F, 3E, 1C, 3C for Off,
RedLow, RedFull, AmberLow, AmberFull, YellowFull, GreenLow, GreenFull; they are pairwise
distinct; the palette `ColorBrightness` has eight entries and every colour, and every
colour byte, occurs in it exactly once. -/
theorem colorBrightness_values :
    ColorBrightnessEnum.Off.toNat = 0x0C ∧ ColorBrightnessEnum.RedLow.toNat = 0x0D ∧
    ColorBrightnessEnum.RedFull.toNat = 0x0F ∧ ColorBrightnessEnum.AmberLow.toNat = 0x1D ∧
    ColorBrightnessEnum.AmberFull.toNat = 0x3F ∧ ColorBrightnessEnum.YellowFull.toNat = 0x3E ∧
    ColorBrightnessEnum.GreenLow.toNat = 0x1C ∧ ColorBrightnessEnum.GreenFull.toNat = 0x3C ∧
    Function.Injective ColorBrightnessEnum.toNat ∧
    ColorBrightness.length = 8 ∧
    (∀ c : ColorBrightnessEnum, ColorBrightness.count c = 1) ∧
    (∀ c : ColorBrightnessEnum, (ColorBrightness.map ColorBrightnessEnum.toNat).count c.toNat = 1) := by
  refine ⟨rfl, rfl, rfl, rfl, rfl, rfl, rfl, rfl, ?_, rfl, ?_, ?_⟩
  · intro a b hab
    cases a <;> cases b <;> first | rfl | exact absurd hab (by decide)
  · intro c
    cases c <;> decide
  · intro c
    cases c <;> decide

/-! ## Invariants and the toggle branch -/

theorem storedValue_pad_some (self : LaunchControl) (c : Controls) (hc : isPad c = true) :
    ∃ s, storedValue self c = some s := by
  cases c <;> first | exact absurd hc (by decide) | exact ⟨_, rfl⟩

theorem control_kind (c : Controls) : isPad c = true ∨ isKnob c = true ∨ c = .UNKNOWN := by
  cases c <;> decide

theorem writeBack_stored_le (self : LaunchControl) (c : Controls) (v : Nat) (hv : v ≤ 127)
    (h : ∀ c' x, storedValue self c' = some x → x ≤ 127) :
    ∀ c' x, storedValue (writeBack self c (v : Int)) c' = some x → x ≤ 127 := by
  intro c' x hx
  by_cases hcc : c' = c
  · subst hcc
    rcases control_kind c' with hp | hk | hu
    · obtain ⟨s, hs⟩ := storedValue_pad_some self c' hp
      have hs127 := h c' s hs
      rw [storedValue_writeBack_pad self c' _ s hp hs,
        toUChar_abs_sub s v (by omega) (by omega)] at hx
      have := Option.some.inj hx
      omega
    · rw [storedValue_writeBack_knob self c' _ hk, toUChar_natCast v (by omega)] at hx
      have := Option.some.inj hx
      omega
    · subst hu
      exact h _ x hx
  · have hm := member_writeBack_ne self c c' (v : Int) hcc
    unfold storedValue at hx
    rw [hm] at hx
    exact h c' x hx

theorem runMessages_stored_le :
    ∀ (ms : List (List Nat)) (self : LaunchControl),
      (∀ m ∈ ms, ∃ s d v, m = [s, d, v] ∧ v ≤ 127) →
      (∀ c x, storedValue self c = some x → x ≤ 127) →
      (runMessages self ms).1 = .ok () ∧
      ∀ c x, storedValue (runMessages self ms).2 c = some x → x ≤ 127 := by
  intro ms
  induction ms with
  | nil =>
    intro self _ h
    exact ⟨rfl, h⟩
  | cons m ms ih =>
    intro self hms h
    obtain ⟨s, d, v, rfl, hv⟩ := hms m (List.mem_cons_self m ms)
    rw [runMessages_cons_three]
    exact ih _ (fun m' hm' => hms m' (List.mem_cons_of_mem _ hm'))
      (writeBack_stored_le self _ v hv h)

theorem firstMatch_writeBack (self : LaunchControl) (c : Controls) (x : Int) (s d : Nat) :
    firstMatch (writeBack self c x) s d = firstMatch self s d := by
  cases c <;> rfl

theorem GetSysExMessage_writeBack (self : LaunchControl) (c : Controls) (x : Int)
    (p : List Nat) : GetSysExMessage (writeBack self c x) p = GetSysExMessage self p := by
  rw [GetSysExMessage_eq, GetSysExMessage_eq]
  cases c <;> rfl

theorem midiInCallback_three (self : LaunchControl) (s d v : Nat) :
    midiInCallback self [s, d, v] =
      (.ok (),
        (if self.logMode = .DEBUG then
          writeBack
            (if self.forceToggleMode = true then
              writeBack (writeBack self (firstMatch self s d) (v : Int))
                (firstMatch self s d) (v : Int)
            else writeBack self (firstMatch self s d) (v : Int))
            (firstMatch self s d) (v : Int)
        else
          (if self.forceToggleMode = true then
            writeBack (writeBack self (firstMatch self s d) (v : Int))
              (firstMatch self s d) (v : Int)
          else writeBack self (firstMatch self s d) (v : Int))),
        (if self.forceToggleMode = true then
          ledMessages
            (writeBack (writeBack self (firstMatch self s d) (v : Int))
              (firstMatch self s d) (v : Int))
            (firstMatch self s d)
        else [])) := by
  have hn : ((([s, d, v] : List Nat).length : Nat) : Int) ≤ 3 := by
    show ((3 : Nat) : Int) ≤ 3
    decide
  unfold midiInCallback
  simp only [hn, if_true, messageToControl_three, getControlName_three, vecAt, List.get?,
    writeBack_forceToggleMode, writeBack_logMode, firstMatch_writeBack]
  by_cases ht : self.forceToggleMode = true <;> by_cases hl : self.logMode = .DEBUG
  · simp only [ht, hl, if_true]
    unfold ledMessages
    cases controlValues _ _ <;>
      simp only [writeBack_logMode, firstMatch_writeBack, hl, if_true]
  · simp only [ht, hl, if_true, if_false]
    unfold ledMessages
    cases controlValues _ _ <;>
      simp only [writeBack_logMode, firstMatch_writeBack, hl, if_false]
  · simp only [ht, hl, Bool.false_eq_true, if_true, if_false, writeBack_logMode,
      firstMatch_writeBack]
  · simp only [ht, hl, Bool.false_eq_true, if_false, writeBack_logMode]

theorem ledMessages_pad (self : LaunchControl) (c : Controls) (hp : isPad c = true) :
    ∃ x, storedValue self c = some x ∧
      ledMessages self c =
        (if x = 127 then [setPadColor self (c.toNat : Int) .RedFull] else []) ++
        (if x = 0 then [setPadColor self (c.toNat : Int) .Off] else []) := by
  cases c <;> first | exact absurd hp (by decide) | exact ⟨_, rfl, rfl⟩

theorem ledMessages_not_pad (self : LaunchControl) (c : Controls) (hp : isPad c = false) :
    ledMessages self c = [] := by
  cases c <;> first | exact absurd hp (by decide) | rfl

theorem setPadColor_control (self : LaunchControl) (c : Controls)
    (color : ColorBrightnessEnum) :
    setPadColor self (c.toNat : Int) color =
      GetSysExMessage self [0x02, 0x0A, 0x78, 0x08, c.toNat, color.toNat] := by
  have hu : toUChar (c.toNat : Int) = c.toNat := by cases c <;> rfl
  unfold setPadColor
  rw [hu]
  rfl

/-- Claim C21: from the freshly constructed object, after any finite sequence of
`messageToControl` calls on three-byte messages whose value byte is at most 127, every
call has succeeded and the stored value of every pad and every knob is at most 127. -/
theorem stored_values_stay_data_bytes (toggleMode : Bool) (logModeMember : LogMode)
    (ms : List (List Nat)) (hms : ∀ m ∈ ms, ∃ s d v, m = [s, d, v] ∧ v ≤ 127) :
    (runMessages (construct toggleMode logModeMember) ms).1 = .ok () ∧
    ∀ c x, storedValue (runMessages (construct toggleMode logModeMember) ms).2 c = some x →
      x ≤ 127 := by
  apply runMessages_stored_le ms _ hms
  intro c x hx
  cases c <;>
    first
    | (cases hx; exact Nat.le_refl 127)
    | (cases hx; exact Nat.zero_le 127)
    | cases hx

theorem stored_values_stay_data_bytes_witness :
    (∀ m ∈ [[152, 9, 127], [184, 41, 100]], ∃ s d v, m = [s, d, v] ∧ v ≤ 127) ∧
    (runMessages (construct true .ERR) [[152, 9, 127], [184, 41, 100]]).1 = .ok () ∧
    ∀ c x, storedValue (runMessages (construct true .ERR) [[152, 9, 127], [184, 41, 100]]).2 c
      = some x → x ≤ 127 :=
  have hms : ∀ m ∈ [[152, 9, 127], [184, 41, 100]], ∃ s d v, m = [s, d, v] ∧ v ≤ 127 := by
    intro m hm
    simp only [List.mem_cons, List.mem_singleton, List.mem_nil_iff, or_false] at hm
    rcases hm with rfl | rfl
    · exact ⟨152, 9, 127, rfl, by decide⟩
    · exact ⟨184, 41, 100, rfl, by decide⟩
  ⟨hms, stored_values_stay_data_bytes true .ERR [[152, 9, 127], [184, 41, 100]] hms⟩

/-- Claim C22: with toggle mode on, when `midiInCallback` handles a three-byte
message classified as the pad with label PAD k, whose enumerator value is k - 1, it
reads the pad's stored value after its call of `getControlName` and sends exactly one
set-LED message with that enumerator value as index byte, with colour RedFull when the
value is 127 and Off when it is 0, and nothing when it is neither; for a message
classified as a knob or as `UNKNOWN` it sends nothing. -/
theorem midiInCallback_toggle_led (self : LaunchControl) (s d v : Nat)
    (ht : self.forceToggleMode = true) :
    ∃ c, (messageToControl self [s, d, v]).1 = .ok c ∧
      (midiInCallback self [s, d, v]).1 = .ok () ∧
      (isPad c = true →
        controlLabel c = "PAD " ++ toString (c.toNat + 1) ∧
        ∃ x, storedValue (getControlName (messageToControl self [s, d, v]).2 [s, d, v]).2 c =
            some x ∧
          (x = 127 → (midiInCallback self [s, d, v]).2.2 =
            [GetSysExMessage self
              [0x02, 0x0A, 0x78, 0x08, c.toNat, ColorBrightnessEnum.RedFull.toNat]]) ∧
          (x = 0 → (midiInCallback self [s, d, v]).2.2 =
            [GetSysExMessage self
              [0x02, 0x0A, 0x78, 0x08, c.toNat, ColorBrightnessEnum.Off.toNat]]) ∧
          (x ≠ 127 → x ≠ 0 → (midiInCallback self [s, d, v]).2.2 = [])) ∧
      (isPad c = false → (midiInCallback self [s, d, v]).2.2 = []) := by
  have hsent : (midiInCallback self [s, d, v]).2.2 =
      ledMessages
        (writeBack (writeBack self (firstMatch self s d) (v : Int)) (firstMatch self s d)
          (v : Int)) (firstMatch self s d) := by
    rw [midiInCallback_three]
    simp only [ht, if_true]
  have hread : (getControlName (messageToControl self [s, d, v]).2 [s, d, v]).2 =
      writeBack (writeBack self (firstMatch self s d) (v : Int)) (firstMatch self s d)
        (v : Int) := by
    rw [messageToControl_three, getControlName_three, firstMatch_writeBack]
  refine ⟨firstMatch self s d, ?_, ?_, ?_, ?_⟩
  · rw [messageToControl_three]
  · rw [midiInCallback_three]
  · intro hp
    constructor
    · revert hp
      cases firstMatch self s d <;> intro hp <;> first | exact absurd hp (by decide) | decide
    · obtain ⟨x, hx, hled⟩ := ledMessages_pad
        (writeBack (writeBack self (firstMatch self s d) (v : Int)) (firstMatch self s d)
          (v : Int)) (firstMatch self s d) hp
      rw [hread, hsent, hled]
      refine ⟨x, hx, ?_, ?_, ?_⟩
      · intro h127
        subst h127
        simp only [setPadColor_control, GetSysExMessage_writeBack]
        rfl
      · intro h0
        subst h0
        simp only [setPadColor_control, GetSysExMessage_writeBack]
        rfl
      · intro hn127 hn0
        rw [if_neg hn127, if_neg hn0]
        rfl
  · intro hp
    rw [hsent]
    exact ledMessages_not_pad _ _ hp

theorem midiInCallback_toggle_led_witness :
    (construct true .ERR).forceToggleMode = true ∧
    (midiInCallback (construct true .ERR) [152, 11, 127]).2.2 =
      [[0xF0, 0x00, 0x20, 0x29, 0x02, 0x0A, 0x78, 0x08, 0x02, 0x0F, 0xF7]] ∧
    (midiInCallback (construct true .ERR) [184, 41, 127]).2.2 = [] ∧
    ∃ c, (messageToControl (construct true .ERR) [152, 11, 127]).1 = .ok c ∧
      (midiInCallback (construct true .ERR) [152, 11, 127]).1 = .ok () ∧
      (isPad c = true →
        controlLabel c = "PAD " ++ toString (c.toNat + 1) ∧
        ∃ x, storedValue (getControlName (messageToControl (construct true .ERR)
            [152, 11, 127]).2 [152, 11, 127]).2 c = some x ∧
          (x = 127 → (midiInCallback (construct true .ERR) [152, 11, 127]).2.2 =
            [GetSysExMessage (construct true .ERR)
              [0x02, 0x0A, 0x78, 0x08, c.toNat, ColorBrightnessEnum.RedFull.toNat]]) ∧
          (x = 0 → (midiInCallback (construct true .ERR) [152, 11, 127]).2.2 =
            [GetSysExMessage (construct true .ERR)
              [0x02, 0x0A, 0x78, 0x08, c.toNat, ColorBrightnessEnum.Off.toNat]]) ∧
          (x ≠ 127 → x ≠ 0 →
            (midiInCallback (construct true .ERR) [152, 11, 127]).2.2 = [])) ∧
      (isPad c = false → (midiInCallback (construct true .ERR) [152, 11, 127]).2.2 = []) :=
  ⟨by decide, by decide, by decide,
    midiInCallback_toggle_led (construct true .ERR) 152 11 127 (by decide)⟩

/-- Claim C23: right after construction every pad stores 127 and every knob stores
0, so `Pad::On` holds for each of the eight pads and `Knob::Value` is 0 for each of the
sixteen knobs. -/
theorem initial_state (toggleMode : Bool) (logModeMember : LogMode) :
    (∀ c, isPad c = true → storedValue (construct toggleMode logModeMember) c = some 127) ∧
    (∀ c, isKnob c = true → storedValue (construct toggleMode logModeMember) c = some 0) ∧
    ((construct toggleMode logModeMember).PAD_1.On = true ∧
      (construct toggleMode logModeMember).PAD_2.On = true ∧
      (construct toggleMode logModeMember).PAD_3.On = true ∧
      (construct toggleMode logModeMember).PAD_4.On = true ∧
      (construct toggleMode logModeMember).PAD_5.On = true ∧
      (construct toggleMode logModeMember).PAD_6.On = true ∧
      (construct toggleMode logModeMember).PAD_7.On = true ∧
      (construct toggleMode logModeMember).PAD_8.On = true) ∧
    ((construct toggleMode logModeMember).KNOB_1_LOW.Value = 0 ∧
      (construct toggleMode logModeMember).KNOB_2_LOW.Value = 0 ∧
      (construct toggleMode logModeMember).KNOB_3_LOW.Value = 0 ∧
      (construct toggleMode logModeMember).KNOB_4_LOW.Value = 0 ∧
      (construct toggleMode logModeMember).KNOB_5_LOW.Value = 0 ∧
      (construct toggleMode logModeMember).KNOB_6_LOW.Value = 0 ∧
      (construct toggleMode logModeMember).KNOB_7_LOW.Value = 0 ∧
      (construct toggleMode logModeMember).KNOB_8_LOW.Value = 0 ∧
      (construct toggleMode logModeMember).KNOB_1_UPPER.Value = 0 ∧
      (construct toggleMode logModeMember).KNOB_2_UPPER.Value = 0 ∧
      (construct toggleMode logModeMember).KNOB_3_UPPER.Value = 0 ∧
      (construct toggleMode logModeMember).KNOB_4_UPPER.Value = 0 ∧
      (construct toggleMode logModeMember).KNOB_5_UPPER.Value = 0 ∧
      (construct toggleMode logModeMember).KNOB_6_UPPER.Value = 0 ∧
      (construct toggleMode logModeMember).KNOB_7_UPPER.Value = 0 ∧
      (construct toggleMode logModeMember).KNOB_8_UPPER.Value = 0) := by
  refine ⟨?_, ?_, ?_, ?_⟩
  · intro c hc
    cases c <;> first | exact absurd hc (by decide) | rfl
  · intro c hc
    cases c <;> first | exact absurd hc (by decide) | rfl
  · exact ⟨rfl, rfl, rfl, rfl, rfl, rfl, rfl, rfl⟩
  · exact ⟨rfl, rfl, rfl, rfl, rfl, rfl, rfl, rfl, rfl, rfl, rfl, rfl, rfl, rfl, rfl, rfl⟩

/-- Claim C24: with toggle mode on and log mode other than `DEBUG`, for a pad with
stored byte `s` and a message for it with value byte `v`, the stored value after
`midiInCallback` is the absolute difference of `v` and the absolute difference of `s`
and `v`; for `s` and `v` in 0, 127 that is `s` again. -/
theorem midiInCallback_pad_twice (self : LaunchControl) (p : Controls) (s : Nat)
    (h : Registered self) (ht : self.forceToggleMode = true) (hl : self.logMode ≠ .DEBUG)
    (hp : isPad p = true) (hs : storedValue self p = some s) (hs256 : s < 256) :
    ∃ d, addressOf self p = some (152, d) ∧
      ∀ v, v < 256 →
        storedValue (midiInCallback self [152, d, v]).2.1 p =
          some (Int.natAbs (((Int.natAbs ((s : Int) - (v : Int)) : Nat) : Int) - (v : Int))) ∧
        ((s = 0 ∨ s = 127) → (v = 0 ∨ v = 127) →
          storedValue (midiInCallback self [152, d, v]).2.1 p = some s) := by
  obtain ⟨d, ha⟩ := pad_address self h p hp
  refine ⟨d, ha, ?_⟩
  intro v hv
  have hstep : storedValue (midiInCallback self [152, d, v]).2.1 p =
      some (Int.natAbs (((Int.natAbs ((s : Int) - (v : Int)) : Nat) : Int) - (v : Int))) := by
    simp only [midiInCallback_three, ht, hl, if_true, if_false,
      firstMatch_addressOf self h p 152 d ha]
    have h1 : storedValue (writeBack self p (v : Int)) p =
        some (Int.natAbs ((s : Int) - (v : Int))) := by
      rw [storedValue_writeBack_pad self p _ s hp hs, toUChar_abs_sub s v hs256 hv]
    rw [storedValue_writeBack_pad _ p _ _ hp h1, toUChar_abs_sub _ v (by omega) hv]
  refine ⟨hstep, ?_⟩
  intro hs01 hv01
  rw [hstep]
  congr 1
  omega

theorem midiInCallback_pad_twice_witness :
    Registered (construct true .ERR) ∧ (construct true .ERR).forceToggleMode = true ∧
    (construct true .ERR).logMode ≠ .DEBUG ∧ isPad .PAD1 = true ∧
    storedValue (construct true .ERR) .PAD1 = some 127 ∧
    storedValue (midiInCallback (construct true .ERR) [152, 9, 127]).2.1 .PAD1 = some 127 ∧
    ∃ d, addressOf (construct true .ERR) .PAD1 = some (152, d) ∧
      ∀ v, v < 256 →
        storedValue (midiInCallback (construct true .ERR) [152, d, v]).2.1 .PAD1 =
          some (Int.natAbs
            (((Int.natAbs (((127 : Nat) : Int) - (v : Int)) : Nat) : Int) - (v : Int))) ∧
        (((127 : Nat) = 0 ∨ (127 : Nat) = 127) → (v = 0 ∨ v = 127) →
          storedValue (midiInCallback (construct true .ERR) [152, d, v]).2.1 .PAD1 =
            some 127) :=
  ⟨by decide, by decide, by decide, by decide, by decide, by decide,
    midiInCallback_pad_twice (construct true .ERR) .PAD1 127 (by decide) (by decide)
      (by decide) (by decide) (by decide) (by decide)⟩

/-- Claim C25: for every template byte `t`, on an object with the constructor's
addresses, `messageToControl` on the message of `resetLaunchControl t` returns
`UNKNOWN` and leaves the object as it was; for `t = 8` the status byte is 184, the
status byte of the knobs. -/
theorem reset_not_a_control (self : LaunchControl) (t : Nat) (h : Registered self) :
    messageToControl self (resetLaunchControl t) = (.ok .UNKNOWN, self) ∧
    resetLaunchControl 8 = [184, 0, 0] := by
  refine ⟨?_, by decide⟩
  have hf : ∀ x, firstMatch self x 0 = .UNKNOWN := by
    intro x
    rw [firstMatch_registered self x 0 h]
    unfold controlTable
    simp
  unfold resetLaunchControl
  rw [messageToControl_three, hf]
  rfl

theorem reset_not_a_control_witness :
    Registered (construct true .ERR) ∧
    messageToControl (construct true .ERR) (resetLaunchControl 8) =
      (.ok .UNKNOWN, construct true .ERR) ∧
    resetLaunchControl 8 = [184, 0, 0] :=
  ⟨by decide, reset_not_a_control (construct true .ERR) 8 (by decide)⟩

/-- Claim C26: with the constructor's manufacturer identifier, for a pad number in
0..127 and any colour the message of `setPadColor`, and for a template byte in 0..127
the message of `setTemplate`, is the byte F0, then bytes all below 80, then the byte
F7; so F0 occurs only first and F7 only last. -/
theorem sysex_well_formed (self : LaunchControl) (h : SYSEX_ID self = [0x00, 0x20, 0x29]) :
    (∀ (n : Int) (c : ColorBrightnessEnum), 0 ≤ n → n ≤ 127 →
      ∃ mid, setPadColor self n c = 0xF0 :: (mid ++ [0xF7]) ∧ ∀ b ∈ mid, b < 0x80) ∧
    (∀ t : Nat, t ≤ 127 →
      ∃ mid, setTemplate self t = 0xF0 :: (mid ++ [0xF7]) ∧ ∀ b ∈ mid, b < 0x80) := by
  simp only [SYSEX_ID, List.cons.injEq, and_true] at h
  obtain ⟨h0, h1, h2⟩ := h
  constructor
  · intro n c hn0 hn
    refine ⟨[0x00, 0x20, 0x29, 0x02, 0x0A, 0x78, 0x08, toUChar n, c.toNat], ?_, ?_⟩
    · unfold setPadColor
      simp only [GetSysExMessage_eq, h0, h1, h2]
      rfl
    · intro b hb
      have hu : toUChar n < 0x80 := by unfold toUChar; omega
      have hc : c.toNat < 0x80 := by cases c <;> decide
      simp only [List.mem_cons, List.mem_singleton, List.mem_nil_iff, or_false] at hb
      rcases hb with rfl | rfl | rfl | rfl | rfl | rfl | rfl | rfl | rfl <;>
        first | exact hu | exact hc | decide
  · intro t ht
    refine ⟨[0x00, 0x20, 0x29, 0x02, 0x0A, 0x77, t], ?_, ?_⟩
    · unfold setTemplate
      simp only [GetSysExMessage_eq, h0, h1, h2]
      rfl
    · intro b hb
      simp only [List.mem_cons, List.mem_singleton, List.mem_nil_iff, or_false] at hb
      rcases hb with rfl | rfl | rfl | rfl | rfl | rfl | rfl <;> omega

theorem sysex_well_formed_witness :
    SYSEX_ID (construct true .ERR) = [0x00, 0x20, 0x29] ∧
    (∀ (n : Int) (c : ColorBrightnessEnum), 0 ≤ n → n ≤ 127 →
      ∃ mid, setPadColor (construct true .ERR) n c = 0xF0 :: (mid ++ [0xF7]) ∧
        ∀ b ∈ mid, b < 0x80) ∧
    (∀ t : Nat, t ≤ 127 →
      ∃ mid, setTemplate (construct true .ERR) t = 0xF0 :: (mid ++ [0xF7]) ∧
        ∀ b ∈ mid, b < 0x80) :=
  ⟨by decide, sysex_well_formed (construct true .ERR) (by decide)⟩

end LaunchControl
